import Mathlib

/-!
Verification development for the cmss-cinder backup orchestration engine.

The definitions below are a shallow embedding of the orchestration code in
`cinder/backup/api.py`, `cinder/backup/manager.py` and
`cinder/backup/rpcapi.py`.  Database records become Lean structures, the
record store becomes explicit lists threaded through the functions, raised
exceptions become `Except` errors, and external collaborators (quota ledger,
drivers, nova) become explicit environment parameters.  Python peculiarities
that matter to the control flow are modelled explicitly:

* Python truthiness of a nullable string (`if description:`) is `pyTruthyStr`;
* Python slicing `s[-6:]` / `s[:-6]` is `pyLastN` / `pyDropLastN`;
* the `in` substring operator is `strContains`;
* Python `max(xs, key=f)` (first maximal element) is `pyMax`;
* `oslo_utils.excutils.save_and_reraise_exception` drops the original
  exception when a new exception is raised inside the `with` block, and a
  `finally` clause that raises replaces the in-flight exception; referencing
  a local variable that was never assigned raises `UnboundLocalError`
  (modelled by the `Err.unboundLocal` constructor).
-/

namespace CmssCinder

/-! ## Constants from the source -/

/-- Constant `MAGICSTR` in api.py / manager.py: the active-restore-target marker
appended to a backup's description. -/
def MAGICSTR : String := "!@##@!"

/-- Constant `PERIODICSTR` in api.py: the tag marking a periodic backup inside its
description. -/
def PERIODICSTR : String := "%#periodic%#"

/-- Constant `FUJITSU_CLONE_START` in manager.py. -/
def FUJITSU_CLONE_START : String := "[]_S_"

/-- Constant `FUJITSU_CLONE_END` in manager.py. -/
def FUJITSU_CLONE_END : String := "[]_F_"

/-- Constant `FUJITSI_VOLUME_TYPE_NAME` in manager.py. -/
def FUJITSI_VOLUME_TYPE_NAME : String := "fujitsu-ipsan"

/-- Constant `EBS_VOLUME_TYPE_NAME` in manager.py. -/
def EBS_VOLUME_TYPE_NAME : String := "ebs-data"

/-- Constant `MOST_BACKUP_RETRIES` in manager.py: poll iterations of the
instance-group completion loop (720 x 5s = 3600s). -/
def MOST_BACKUP_RETRIES : Nat := 720

/-! ## Python-semantics helpers -/

/-- Whether `needle` matches the front of `hay` (on character lists). -/
def charsLeadWith : List Char → List Char → Bool
  | [], _ => true
  | _ :: _, [] => false
  | c :: cs, d :: ds => c == d && charsLeadWith cs ds

/-- Whether `needle` occurs somewhere inside the character list. -/
def charsOccur (needle : List Char) : List Char → Bool
  | [] => needle.isEmpty
  | d :: ds => charsLeadWith needle (d :: ds) || charsOccur needle ds

/-- Python `needle in hay` on strings. -/
def strContains (hay needle : String) : Bool :=
  charsOccur needle.data hay.data

/-- Python truthiness of a nullable string: `None` and `""` are falsy. -/
def pyTruthyStr : Option String → Bool
  | none => false
  | some s => !s.isEmpty

/-- Python `s[-n:]`: the last `n` characters (the whole string when shorter). -/
def pyLastN (n : Nat) (s : String) : String :=
  ⟨s.data.drop (s.data.length - n)⟩

/-- Python `s[:-n]`: everything but the last `n` characters. -/
def pyDropLastN (n : Nat) (s : String) : String :=
  ⟨s.data.take (s.data.length - n)⟩

/-- Python `max(l, key=key)`: the first element with maximal key
(`max` keeps the current maximum on ties), `none` on the empty list. -/
def pyMax {α : Type} (key : α → Nat) : List α → Option α
  | [] => none
  | x :: xs => some (xs.foldl (fun cur y => if key y > key cur then y else cur) x)

/-- The characters before the first occurrence of `c`. -/
def charsBefore (c : Char) : List Char → List Char
  | [] => []
  | d :: ds => if d == c then [] else d :: charsBefore c ds

/-- Modelled from the spec: `volume_utils.extract_host(host, 'host')` keeps
the executor part of a `host@backend#pool` string (the part before `@`). -/
def extract_host_hostpart (h : String) : String :=
  ⟨charsBefore '@' h.data⟩

/-! ## Data model (records of the transactional store) -/

/-- One row of the volume-attachment table, as read through
`volume['volume_attachment']`. -/
structure Attachment where
  id : String
  attached_host : Option String
  instance_uuid : Option String
deriving Repr, DecidableEq

/-- A Volume record as the orchestrator sees it.  `status` is nullable
because `restore_backup` writes the (nullable) stashed description back into
it; `display_description` doubles as the status stash. -/
structure Volume where
  id : String
  size : Nat
  status : Option String
  host : String
  display_description : Option String
  volume_attachment : List Attachment
  volume_type_name : String
deriving Repr, DecidableEq

/-- A Backup record. -/
structure Backup where
  id : String
  volume_id : String
  project_id : String
  status : String
  display_name : Option String
  display_description : Option String
  parent_id : Option String
  created_at : Nat
  size : Option Nat
  host : String
  service : Option String
  container : Option String
  fail_reason : Option String
  availability_zone : Option String
deriving Repr, DecidableEq

/-- The record store. -/
structure DB where
  volumes : List Volume
  backups : List Backup
deriving Repr, DecidableEq

/-- The request context (`cinder.context`): project, admin flag, and the
`periodic` attribute set by `context.set_periodic` for periodic backups. -/
structure Context where
  project_id : String
  is_admin : Bool
  periodic : Bool
deriving Repr, DecidableEq

/-! ## Repository operations.

Modelled from the spec: the BackupRepository / VolumeRepository component
("CRUD + filtered-list over Backup and Volume records"); the concrete
`cinder.db` layer is not part of the sources under verification. -/

/-- Modelled from the spec: `db.volume_get`. -/
def volume_get (db : DB) (id : String) : Option Volume :=
  db.volumes.find? (fun v => v.id == id)

/-- Modelled from the spec: `db.backup_get`. -/
def backup_get (db : DB) (id : String) : Option Backup :=
  db.backups.find? (fun b => b.id == id)

/-- Modelled from the spec: `db.volume_update` — update every row with the
given id. -/
def volume_update (db : DB) (id : String) (f : Volume → Volume) : DB :=
  { db with volumes := db.volumes.map (fun v => if v.id == id then f v else v) }

/-- Modelled from the spec: `db.backup_update` — update every row with the
given id. -/
def backup_update (db : DB) (id : String) (f : Backup → Backup) : DB :=
  { db with backups := db.backups.map (fun b => if b.id == id then f b else b) }

/-- Modelled from the spec: `db.backup_create` — insert a row. -/
def backup_create (db : DB) (b : Backup) : DB :=
  { db with backups := db.backups ++ [b] }

/-- Modelled from the spec: `db.backup_destroy` — delete the row. -/
def backup_destroy (db : DB) (id : String) : DB :=
  { db with backups := db.backups.filter (fun b => b.id != id) }

/-- Modelled from the spec: `db.backup_get_all_by_volume` (called with an
elevated context, so no project filter). -/
def backup_get_all_by_volume (db : DB) (volume_id : String) : List Backup :=
  db.backups.filter (fun b => b.volume_id == volume_id)

/-- Modelled from the spec: `db.backup_get_all` with a `volume_id` filter
(admin read in `restore_backup`). -/
def backup_get_all_filtered (db : DB) (volume_id : String) : List Backup :=
  db.backups.filter (fun b => b.volume_id == volume_id)

/-- Modelled from the spec: `db.backup_get_all_by_project` with a
`volume_id` filter (non-admin read in `restore_backup`). -/
def backup_get_all_by_project_filtered (db : DB) (project_id volume_id : String) :
    List Backup :=
  db.backups.filter (fun b => b.volume_id == volume_id && b.project_id == project_id)

/-- Modelled from the spec: `db.backup_get_all_by_host` (init_host sweep). -/
def backup_get_all_by_host (db : DB) (host : String) : List Backup :=
  db.backups.filter (fun b => b.host == host)

/-- Modelled from the spec: `db.volume_get_all_by_host` — rows whose host
column names this executor (`host` or `host@backend...`). -/
def volume_get_all_by_host (db : DB) (host : String) : List Volume :=
  db.volumes.filter (fun v => extract_host_hostpart v.host == host)

/-! ## Errors, quota ledger, message bus -/

/-- The exceptions the modelled code can raise. -/
inductive Err where
  | invalidVolume (reason : String)
  | invalidBackup (reason : String)
  | serviceNotFound (service_id : String)
  | volumeBackupSizeExceedsAvailableQuota (requested consumed quota : Nat)
  | backupLimitExceeded (allowed : Nat)
  | unboundLocal (var : String)
  | dbError (tag : String)
  | driverError (msg : String)
  | notFound (what : String)
deriving Repr, DecidableEq

/-- Payload of `exception.OverQuota`: the overrun resource names plus the
`usages` and `quotas` maps. -/
structure OverQuota where
  overs : List String
  reserved : String → Nat
  in_use : String → Nat
  quotas : String → Nat

/-- Modelled from the spec: a QuotaLedger event (reserve / commit /
rollback of a reservation, identified by an opaque id). -/
inductive QuotaOp where
  | reserve (r : Nat)
  | commit (r : Nat)
  | rollback (r : Nat)
deriving Repr, DecidableEq

/-- Whether a message-bus dispatch is fire-and-forget (`cast`) or
request/response (`call`). -/
inductive RpcKind where
  | cast
  | call
deriving Repr, DecidableEq

/-- One message-bus dispatch issued by the orchestrator. -/
structure RpcDispatch where
  kind : RpcKind
  method : String
  server : String
deriving Repr, DecidableEq

/-- Observable state threaded through the modelled operations: the record
store plus the ordered logs of quota-ledger events, message-bus dispatches
and backup-driver invocations. -/
structure CState where
  db : DB
  quotaOps : List QuotaOp
  rpc : List RpcDispatch
  driverCalls : List String
deriving Repr, DecidableEq

/-! ## BackupOrchestrator: `API.create` (api.py lines 138-279) -/

/-- The `normal_backups` filter in `API.create` (api.py lines 204-211): a
backup is normal when its description is falsy or does not contain the
periodic tag. -/
def normalBackups (bs : List Backup) : List Backup :=
  bs.filter (fun bk =>
    !(pyTruthyStr bk.display_description) ||
      !(strContains (bk.display_description.getD "") PERIODICSTR))

/-- The `latest_backup` selection in `API.create` (api.py lines 191-218):
`none` for periodic or non-incremental calls, otherwise the first
normal backup with maximal `created_at`. -/
def resolveLatest (periodic incremental : Bool) (volBackups : List Backup) :
    Option Backup :=
  if periodic then none
  else if incremental then
    if volBackups.isEmpty then none
    else
      let normal_backups := normalBackups volBackups
      if normal_backups.isEmpty then none
      else pyMax (fun b => b.created_at) normal_backups
  else none

/-- The `parent_id` computation in `API.create` (api.py lines 219-239): an
`available` candidate becomes the parent, a `creating` candidate raises
`InvalidBackup`, anything else falls back to a full backup. -/
def resolveParentId (periodic incremental : Bool) (volBackups : List Backup) :
    Except Err (Option String) :=
  match resolveLatest periodic incremental volBackups with
  | some lb =>
      if lb.status == "available" then Except.ok (some lb.id)
      else if lb.status == "creating" then
        Except.error (Err.invalidBackup "The parent backup is creating.")
      else Except.ok none
  | none => Except.ok none

/-- The `for over in overs` loop of the `OverQuota` handler in `API.create`
(api.py lines 166-187): the first over containing `gigabytes` raises the
capacity error, else the first containing `backups` raises the count error;
when no over matches, the handler completes without raising (`none`). -/
def overQuotaRaise (e : OverQuota) (vsize : Nat) : List String → Option Err
  | [] => none
  | over :: rest =>
      if strContains over "gigabytes" then
        some (Err.volumeBackupSizeExceedsAvailableQuota vsize
          (e.reserved "backup_gigabytes" + e.in_use "backup_gigabytes")
          (e.quotas "backup_gigabytes"))
      else if strContains over "backups" then
        some (Err.backupLimitExceeded (e.quotas over))
      else overQuotaRaise e vsize rest

/-- The environment of one `API.create` call: whether
`_is_backup_service_enabled` holds, the outcome of `QUOTAS.reserve`
(a reservation id or an `OverQuota`), whether `db.backup_create` and
`QUOTAS.commit` succeed, and the id / timestamp the store assigns to the new
row. -/
structure CreateEnv where
  service_enabled : Bool
  quota : Except OverQuota Nat
  backup_create_ok : Bool
  commit_ok : Bool
  new_backup_id : String
  now : Nat

/-- The `except Exception` handler around `backup_create` / `commit`
(api.py lines 264-269), together with the library semantics of
`excutils.save_and_reraise_exception`:
`try: backup_destroy(backup['id']) finally: QUOTAS.rollback(reservations)`.
`boundBackup`/`reservations` are `none` when the corresponding Python local
was never assigned, in which case referencing it raises `UnboundLocalError`;
an exception raised in the `finally` clause replaces the in-flight one, and
a new exception inside the `with` block replaces the original `e0`. -/
def createExceptHandler (st : CState) (boundBackup : Option Backup)
    (reservations : Option Nat) (e0 : Err) : CState × Except Err Backup :=
  let inner : CState × Option Err :=
    match boundBackup with
    | some b => ({ st with db := backup_destroy st.db b.id }, none)
    | none => (st, some (Err.unboundLocal "backup"))
  let fin : CState × Option Err :=
    match reservations with
    | some r => ({ inner.1 with quotaOps := inner.1.quotaOps ++ [QuotaOp.rollback r] },
        none)
    | none => (inner.1, some (Err.unboundLocal "reservations"))
  (fin.1, Except.error (fin.2.getD (inner.2.getD e0)))

/-- Function `API.create` after the quota step (api.py lines 189-279): periodic
description rewrite, parent resolution, volume status update, record
insertion, reservation commit and asynchronous dispatch.  `reservations`
is `none` when `QUOTAS.reserve` raised but the `OverQuota` handler fell
through without raising. -/
def createAfterQuota (ctx : Context) (env : CreateEnv) (description : Option String)
    (volume_id : String) (name : Option String) (container : Option String)
    (incremental : Bool) (volume : Volume) (reservations : Option Nat)
    (st : CState) : CState × Except Err Backup :=
  let volume_host := extract_host_hostpart volume.host
  let description :=
    if ctx.periodic then
      if pyTruthyStr description then some (PERIODICSTR ++ description.getD "")
      else some PERIODICSTR
    else description
  match resolveParentId ctx.periodic incremental
      (backup_get_all_by_volume st.db volume_id) with
  | Except.error e => (st, Except.error e)
  | Except.ok parent_id =>
      let st := { st with
        db := volume_update st.db volume_id
          (fun v => { v with status := some "backing-up" }) }
      let options : Backup :=
        { id := env.new_backup_id
          volume_id := volume_id
          project_id := ctx.project_id
          status := "creating"
          display_name := name
          display_description := description
          parent_id := parent_id
          created_at := env.now
          size := some 0
          host := volume_host
          service := none
          container := container
          fail_reason := none
          availability_zone := none }
      if env.backup_create_ok then
        let st := { st with db := backup_create st.db options }
        match reservations with
        | some r =>
            if env.commit_ok then
              let st := { st with quotaOps := st.quotaOps ++ [QuotaOp.commit r] }
              let st := { st with rpc := st.rpc ++
                [{ kind := RpcKind.cast, method := "create_backup",
                   server := options.host }] }
              (st, Except.ok options)
            else
              createExceptHandler st (some options) (some r) (Err.dbError "commit")
        | none =>
            createExceptHandler st (some options) none
              (Err.unboundLocal "reservations")
      else
        createExceptHandler st none reservations (Err.dbError "backup_create")

/-- Function `API.create` (api.py lines 138-279). -/
def API.create (ctx : Context) (env : CreateEnv) (name description : Option String)
    (volume_id : String) (container : Option String) (incremental : Bool)
    (st : CState) : CState × Except Err Backup :=
  match volume_get st.db volume_id with
  | none => (st, Except.error (Err.notFound "volume"))
  | some volume =>
      if volume.status != some "available" then
        (st, Except.error (Err.invalidVolume "Volume to be backed up must be available"))
      else if !env.service_enabled then
        (st, Except.error (Err.serviceNotFound "cinder-backup"))
      else
        match env.quota with
        | Except.error oq =>
            match overQuotaRaise oq volume.size oq.overs with
            | some e => (st, Except.error e)
            | none =>
                createAfterQuota ctx env description volume_id name container
                  incremental volume none st
        | Except.ok r =>
            let st := { st with quotaOps := st.quotaOps ++ [QuotaOp.reserve r] }
            createAfterQuota ctx env description volume_id name container
              incremental volume (some r) st

/-- Replace the record store inside an observable state. -/
def withDb (st : CState) (db : DB) : CState :=
  { st with db := db }

/-! ## BackupOrchestrator: `API.restore` (api.py lines 281-363) -/

/-- The environment of one `API.restore` call: the nova power state of each
attached instance (`get_server(...).status`), and — for the
restore-to-new-volume path — the volume record as it reads once the creation
poll loop sees it leave `creating`. -/
structure RestoreEnv where
  instance_status : String → String
  created_volume : Volume

/-- Function `API.restore` (api.py lines 281-363).  Returns the new observable state
and either the raised exception or the `{backup_id, volume_id}` result. -/
def API.restore (env : RestoreEnv) (st : CState) (backup_id : String)
    (volume_id? : Option String) : CState × Except Err (String × String) :=
  match backup_get st.db backup_id with
  | none => (st, Except.error (Err.notFound "backup"))
  | some backup =>
      if backup.status != "available" then
        (st, Except.error (Err.invalidBackup "Backup status must be available"))
      else
        match backup.size with
        | none => (st, Except.error (Err.invalidBackup "Backup to be restored has invalid size"))
        | some size =>
            -- volume acquisition: create-and-poll when no volume was given
            let acq : CState × Volume × String :=
              match volume_id? with
              | none =>
                  ({ st with db := { st.db with
                      volumes := st.db.volumes ++ [env.created_volume] } },
                    env.created_volume, env.created_volume.id)
              | some vid =>
                  match volume_get st.db vid with
                  | some v => (st, v, vid)
                  | none => (st, env.created_volume, vid)  -- unreachable when the volume exists
            let st := acq.1
            let volume := acq.2.1
            let volume_id := acq.2.2
            if !(volume.status == some "available" || volume.status == some "in-use") then
              (st, Except.error (Err.invalidVolume "Volume to be backed up must be available or in-use"))
            else if volume.status == some "in-use" &&
                volume.volume_attachment.any
                  (fun a => env.instance_status (a.instance_uuid.getD "") != "SHUTOFF") then
              (st, Except.error (Err.invalidVolume "attached vm should be in poweroff status"))
            else
              -- stash the current volume status into display_description
              -- (api.py lines 330-332) — this happens BEFORE the size check
              let st := withDb st (volume_update st.db volume_id
                (fun v => { v with display_description := volume.status }))
              if size > volume.size * 1024 then
                (st, Except.error (Err.invalidVolume "volume size is too small to restore backup"))
              else
                let st := withDb st (backup_update st.db backup_id
                  (fun b => { b with status := "restoring" }))
                let st := withDb st (volume_update st.db volume_id
                  (fun v => { v with status := some "restoring-backup" }))
                let st := { st with rpc := st.rpc ++
                  [{ kind := RpcKind.cast, method := "restore_backup",
                     server := extract_host_hostpart volume.host }] }
                (st, Except.ok (backup_id, volume_id))

/-! ## BackupExecutor: `BackupManager.create_backup` (manager.py lines 265-341) -/

/-- The `mapper` table and `_map_service_to_driver` in manager.py. -/
def mapServiceToDriver : Option String → Option String
  | some "cinder.backup.services.swift" => some "cinder.backup.drivers.swift"
  | some "cinder.backup.services.ceph" => some "cinder.backup.drivers.ceph"
  | s => s

/-- The executor-side environment: whether the configured driver is
initialized, the outcome of the driver's `backup_volume` capability (a
`{size, container}` dict, possibly partial, or an exception message) and of
its `restore_backup` capability (`none` = success). -/
structure MEnv where
  driver_initialized : Bool
  backup_result : Except String (Option Nat × Option String)
  restore_error : Option String

/-- Function `BackupManager.create_backup` (manager.py lines 265-341): precondition
checks on the volume and backup statuses, then the driver invocation and the
terminal status writes. -/
def BackupManager.create_backup (selfHost driverName az : String) (env : MEnv)
    (st : CState) (backup_id : String) : CState × Except Err Unit :=
  match backup_get st.db backup_id with
  | none => (st, Except.error (Err.notFound "backup"))
  | some bakup =>
      match volume_get st.db bakup.volume_id with
      | none => (st, Except.error (Err.notFound "volume"))
      | some volume =>
          let volume_id := bakup.volume_id
          let st := withDb st (backup_update st.db backup_id
            (fun b => { b with host := selfHost, service := some driverName }))
          if volume.status != some "backing-up" then
            let st := withDb st (backup_update st.db backup_id
              (fun b => { b with
                status := "error"
                fail_reason := some "Create backup aborted, expected volume status backing-up" }))
            (st, Except.error (Err.invalidVolume "Create backup aborted, expected volume status backing-up"))
          else if bakup.status != "creating" then
            let st := withDb st (volume_update st.db volume_id
              (fun v => { v with status := some "available" }))
            let st := withDb st (backup_update st.db backup_id
              (fun b => { b with
                status := "error"
                fail_reason := some "Create backup aborted, expected backup status creating" }))
            (st, Except.error (Err.invalidBackup "Create backup aborted, expected backup status creating"))
          else if !env.driver_initialized then
            let st := withDb st (volume_update st.db volume_id
              (fun v => { v with status := some "available" }))
            let st := withDb st (backup_update st.db backup_id
              (fun b => { b with
                status := "error"
                fail_reason := some "DriverNotInitialized" }))
            (st, Except.error (Err.driverError "DriverNotInitialized"))
          else
            let st := { st with driverCalls := st.driverCalls ++ ["backup_volume"] }
            match env.backup_result with
            | Except.error msg =>
                let st := withDb st (volume_update st.db volume_id
                  (fun v => { v with status := some "available" }))
                let st := withDb st (backup_update st.db backup_id
                  (fun b => { b with status := "error", fail_reason := some msg }))
                (st, Except.error (Err.driverError msg))
            | Except.ok res =>
                let newContainer : Option String :=
                  match res.2 with
                  | some c => some c
                  | none => bakup.container
                let st := withDb st (volume_update st.db volume_id
                  (fun v => { v with status := some "available" }))
                let st := withDb st (backup_update st.db backup_id
                  (fun b => { b with
                    status := "available"
                    size := res.1
                    availability_zone := some az
                    container := newContainer }))
                (st, Except.ok ())

/-! ## BackupExecutor: `BackupManager.restore_backup` (manager.py lines 343-614) -/

/-- One step of the active-marker strip loop (manager.py lines 587-597):
if the fetched record's description ends in `MAGICSTR`, rewrite it without
that suffix. -/
def stripStep (db : DB) (bak : Backup) : DB :=
  match bak.display_description with
  | some d =>
      if !d.isEmpty && pyLastN 6 d == MAGICSTR then
        backup_update db bak.id
          (fun b => { b with display_description := some (pyDropLastN 6 d) })
      else db
  | none => db

/-- The active-marker strip loop over the fetched backups of the volume. -/
def stripFold (L : List Backup) (db : DB) : DB :=
  L.foldl stripStep db

/-- The active-marker bookkeeping tail of `restore_backup` (manager.py
lines 579-609), starting from the record value `backup2` returned by the
`status := available` update: strip the marker suffix from every fetched
backup of the volume, then append `MAGICSTR` to `backup2`'s (stale)
description. -/
def activeMarkerBookkeeping (ctx : Context) (db : DB) (backup2 : Backup)
    (backup_id volume_id : String) : DB :=
  let backups :=
    if ctx.is_admin then backup_get_all_filtered db volume_id
    else backup_get_all_by_project_filtered db ctx.project_id volume_id
  let db := stripFold backups db
  match backup2.display_description with
  | some d =>
      if !d.isEmpty then
        backup_update db backup_id
          (fun b => { b with display_description := some (d ++ MAGICSTR) })
      else
        backup_update db backup_id
          (fun b => { b with display_description := some MAGICSTR })
  | none =>
      backup_update db backup_id
        (fun b => { b with display_description := some MAGICSTR })

/-- Function `BackupManager.restore_backup` (manager.py lines 343-614): precondition
checks, driver restore, then — on success — un-stash the volume status,
clear the stash and run the active-marker bookkeeping. -/
def BackupManager.restore_backup (ctx : Context) (selfHost driverName : String)
    (env : MEnv) (st : CState) (backup_id volume_id : String) :
    CState × Except Err Unit :=
  match backup_get st.db backup_id with
  | none => (st, Except.error (Err.notFound "backup"))
  | some backup =>
      match volume_get st.db volume_id with
      | none => (st, Except.error (Err.notFound "volume"))
      | some volume =>
          let st := withDb st (backup_update st.db backup_id
            (fun b => { b with host := selfHost }))
          if volume.status != some "restoring-backup" then
            let st := withDb st (backup_update st.db backup_id
              (fun b => { b with status := "available" }))
            let st := withDb st (volume_update st.db volume_id
              (fun v => { v with status := some "error" }))
            (st, Except.error (Err.invalidVolume "Restore backup aborted, expected volume status restoring-backup"))
          else if backup.status != "restoring" then
            let st := withDb st (backup_update st.db backup_id
              (fun b => { b with
                status := "error"
                fail_reason := some "Restore backup aborted: expected backup status restoring" }))
            let st := withDb st (volume_update st.db volume_id
              (fun v => { v with status := some "error_restoring" }))
            (st, Except.error (Err.invalidBackup "Restore backup aborted: expected backup status restoring"))
          else if mapServiceToDriver backup.service != some driverName then
            let st := withDb st (backup_update st.db backup_id
              (fun b => { b with status := "available" }))
            let st := withDb st (volume_update st.db volume_id
              (fun v => { v with status := some "error_restoring" }))
            (st, Except.error (Err.invalidBackup "Restore backup aborted, configured service mismatch"))
          else if !env.driver_initialized then
            let st := withDb st (volume_update st.db volume_id
              (fun v => { v with status := some "error_restoring" }))
            let st := withDb st (backup_update st.db backup_id
              (fun b => { b with status := "available" }))
            (st, Except.error (Err.driverError "DriverNotInitialized"))
          else
            let st := { st with driverCalls := st.driverCalls ++ ["restore_backup"] }
            match env.restore_error with
            | some msg =>
                let st := withDb st (volume_update st.db volume_id
                  (fun v => { v with status := some "error_restoring" }))
                let st := withDb st (backup_update st.db backup_id
                  (fun b => { b with status := "available" }))
                (st, Except.error (Err.driverError msg))
            | none =>
                -- success tail (manager.py lines 571-610): un-stash the
                -- volume status from the display_description read at entry
                let st := withDb st (volume_update st.db volume_id
                  (fun v => { v with status := volume.display_description }))
                let st := withDb st (volume_update st.db volume_id
                  (fun v => { v with display_description := some "" }))
                let st := withDb st (backup_update st.db backup_id
                  (fun b => { b with status := "available" }))
                -- `backup = self.db.backup_update(...)` rebinds `backup` to
                -- the updated record (host updated at entry, status now
                -- available, description still the stale fetched value)
                let backup2 : Backup := { backup with host := selfHost, status := "available" }
                let st := withDb st
                  (activeMarkerBookkeeping ctx st.db backup2 backup_id volume_id)
                (st, Except.ok ())

/-! ## BackupExecutor: `BackupManager.init_host` crash-recovery sweep
(manager.py lines 203-263) -/

/-- The detach issued for recovery: remove every attachment of the volume
held by this host with no associated instance (manager.py lines 223-227 and
232-236; the volume-manager `detach_volume` capability is modelled from the
spec as dropping the attachment row). -/
def detachHostAttachments (db : DB) (selfHost vid : String) : DB :=
  volume_update db vid (fun v => { v with
    volume_attachment := v.volume_attachment.filter
      (fun a => !(a.attached_host == some selfHost && a.instance_uuid == none)) })

/-- One step of the init_host volume sweep (manager.py lines 214-238). -/
def initHostVolumeStep (selfHost : String) (db : DB) (volume : Volume) : DB :=
  if volume.volume_attachment.isEmpty then db
  else
    let db :=
      if volume.status == some "backing-up" then
        detachHostAttachments db selfHost volume.id
      else db
    if volume.status == some "restoring-backup" then
      let db := detachHostAttachments db selfHost volume.id
      volume_update db volume.id (fun v => { v with status := some "error_restoring" })
    else db

/-- One step of the init_host backup sweep (manager.py lines 242-263).
`resumeDelete` is the synchronous re-invocation of `delete_backup` for a
backup found in `deleting` (its internals are irrelevant to the sweep
claims and are kept as a parameter). -/
def initHostBackupStep (resumeDelete : DB → String → DB) (db : DB)
    (backup : Backup) : DB :=
  if backup.status == "creating" then
    backup_update db backup.id (fun b => { b with
      status := "error"
      fail_reason := some "incomplete backup reset on manager restart" })
  else if backup.status == "restoring" then
    backup_update db backup.id (fun b => { b with status := "available" })
  else if backup.status == "deleting" then
    resumeDelete db backup.id
  else db

/-- Function `BackupManager.init_host` (manager.py lines 203-263): the crash-recovery
sweep over this host's volumes, then over this host's backups. -/
def BackupManager.init_host (selfHost : String) (resumeDelete : DB → String → DB)
    (db : DB) : DB :=
  let db := (volume_get_all_by_host db selfHost).foldl
    (initHostVolumeStep selfHost) db
  (backup_get_all_by_host db selfHost).foldl
    (initHostBackupStep resumeDelete) db

/-! ## InstanceGroupCoordinator: the completion poll of
`BackupManager.create_instance_backup` (manager.py lines 1129-1204) -/

/-- A member backup as the poll loop reads it each attempt.  In this flow
`display_description` is always a string (the api layer prepends the
correlation prefix). -/
structure BSnap where
  id : String
  volume_id : String
  status : String
  display_description : String
  fail_reason : Option String
deriving Repr, DecidableEq

/-- Whether the poll loop body breaks at one attempt, given the member
snapshots just read and the `volume_type.name` of each member's volume
(manager.py lines 1139-1194): break when all statuses are terminal, or when
they are at worst `creating`, no EBS member is still `creating`, and every
FUJITSU member in `creating` carries a clone-session marker. -/
def groupPollBreaks (volType : String → String) (bl : List BSnap) : Bool :=
  let fujitsu_backup_list :=
    bl.filter (fun b => volType b.volume_id == FUJITSI_VOLUME_TYPE_NAME)
  let ebs_backup_list :=
    bl.filter (fun b => volType b.volume_id == EBS_VOLUME_TYPE_NAME)
  let bak_status_list := bl.map (fun b => b.status)
  if bak_status_list.all (fun s => s == "available" || s == "error") then
    true
  else if bak_status_list.all
      (fun s => s == "available" || s == "error" || s == "creating") then
    if ebs_backup_list.any (fun b => b.status == "creating") then false
    else
      fujitsu_backup_list.all (fun b =>
        !(b.status == "creating" &&
          (!strContains b.display_description FUJITSU_CLONE_START &&
           !strContains b.display_description FUJITSU_CLONE_END)))
  else false

/-- The value of the Python loop variable `attempt` after the
`for attempt in range(MOST_BACKUP_RETRIES)` poll loop: the first attempt at
which the body breaks, or `MOST_BACKUP_RETRIES - 1` when the loop exhausts.
`read t` is the store's view of the member backups at attempt `t`. -/
def finalAttempt (volType : String → String) (read : Nat → List BSnap) : Nat :=
  (((List.range MOST_BACKUP_RETRIES).find?
      (fun t => groupPollBreaks volType (read t))).getD (MOST_BACKUP_RETRIES - 1))

/-- The member backups after the poll loop and the timeout marking
(manager.py lines 1196-1204): when `attempt == MOST_BACKUP_RETRIES - 1`
every member is updated to `error` with the fixed timeout reason. -/
def groupBackupFinal (volType : String → String) (read : Nat → List BSnap) :
    List BSnap :=
  let attempt := finalAttempt volType read
  let final := read attempt
  if attempt == MOST_BACKUP_RETRIES - 1 then
    final.map (fun b => { b with
      status := "error"
      fail_reason := some "backing up isn't finished in 3600s" })
  else final

/-! ## HostDispatcher: `BackupAPI` rpc client (rpcapi.py lines 51-127) -/

/-- Function `BackupAPI.create_backup` (rpcapi.py lines 51-54): fire-and-forget. -/
def BackupAPI.create_backup_rpc (host : String) : RpcDispatch :=
  { kind := RpcKind.cast, method := "create_backup", server := host }

/-- Function `BackupAPI.restore_backup` (rpcapi.py lines 56-60): fire-and-forget. -/
def BackupAPI.restore_backup_rpc (host : String) : RpcDispatch :=
  { kind := RpcKind.cast, method := "restore_backup", server := host }

/-- Function `BackupAPI.delete_backup` (rpcapi.py lines 62-65): fire-and-forget. -/
def BackupAPI.delete_backup_rpc (host : String) : RpcDispatch :=
  { kind := RpcKind.cast, method := "delete_backup", server := host }

/-- Function `BackupAPI.export_record` (rpcapi.py lines 67-73): request/response —
`return cctxt.call(ctxt, 'export_record', ...)`. -/
def BackupAPI.export_record_rpc (host : String) : RpcDispatch :=
  { kind := RpcKind.call, method := "export_record", server := host }

/-- Function `BackupAPI.import_record` (rpcapi.py lines 75-92):
`cctxt.cast(ctxt, 'import_record', ...)`. -/
def BackupAPI.import_record_rpc (host : String) : RpcDispatch :=
  { kind := RpcKind.cast, method := "import_record", server := host }

/-! ## Statement-level definitions -/

/-- Whether a nullable description currently ends in the active-restore
marker — the exact test the strip loop performs (`if description:` followed
by `description[-6:] == MAGICSTR`). -/
def hasMarkerSuffix (d : Option String) : Bool :=
  pyTruthyStr d && pyLastN 6 (d.getD "") == MAGICSTR

/-- Row-wise characterization of the strip loop: the outcome of `stripFold L`
on one row, assuming ids are unique — the row is rewritten using the (unique)
snapshot entry with its id, when that entry carries the marker suffix. -/
def stripOutcome (L : List Backup) (r : Backup) : Backup :=
  match L.find? (fun x => x.id == r.id) with
  | some x =>
      match x.display_description with
      | some d =>
          if !d.isEmpty && pyLastN 6 d == MAGICSTR then
            { r with display_description := some (pyDropLastN 6 d) }
          else r
      | none => r
  | none => r

/-! ## Concrete fixtures used by counterexamples and witnesses -/

/-- A backup available to serve as incremental parent (C1 witness). -/
def c1_parent : Backup :=
  { id := "b1", volume_id := "v", project_id := "p", status := "available",
    display_name := none, display_description := some "nightly", parent_id := none,
    created_at := 5, size := some 100, host := "h1", service := some "drv",
    container := none, fail_reason := none, availability_zone := none }

/-- A second, older backup (C1 witness). -/
def c1_older : Backup :=
  { c1_parent with id := "b0", created_at := 3 }

/-- The member backups the instance-group poll loop reads at every attempt in
the C2 run: one EBS member stuck in `creating`, one already `available`. -/
def c2_members : List BSnap :=
  [ { id := "gb1", volume_id := "v1", status := "creating",
      display_description := "grp", fail_reason := none },
    { id := "gb2", volume_id := "v2", status := "available",
      display_description := "grp", fail_reason := none } ]

/-- The store trace of the C2 run: the members never change. -/
def c2_read : Nat → List BSnap := fun _ => c2_members

/-- Volume types of the C2 run: every volume is EBS. -/
def c2_volType : String → String := fun _ => EBS_VOLUME_TYPE_NAME

/-- An available 10 GB volume (create-path fixtures). -/
def c3_volume : Volume :=
  { id := "v", size := 10, status := some "available", host := "h1@lvm",
    display_description := none, volume_attachment := [], volume_type_name := "ebs-data" }

/-- The non-periodic, non-admin caller context of the create-path fixtures. -/
def c3_ctx : Context :=
  { project_id := "p", is_admin := false, periodic := false }

/-- The `OverQuota` of the C3 witness: backup gigabytes overrun. -/
def c3_overquota : OverQuota :=
  { overs := ["backup_gigabytes"], reserved := fun _ => 5, in_use := fun _ => 7,
    quotas := fun _ => 10 }

/-- The C3 witness environment: the reservation fails with `OverQuota`. -/
def c3_env : CreateEnv :=
  { service_enabled := true, quota := Except.error c3_overquota,
    backup_create_ok := true, commit_ok := true, new_backup_id := "nb", now := 9 }

/-- The `OverQuota` of the C3 witness count branch: backup-count overrun. -/
def c3_overquota_count : OverQuota :=
  { overs := ["backups"], reserved := fun _ => 5, in_use := fun _ => 7,
    quotas := fun _ => 10 }

/-- The C3 witness environment for the count branch. -/
def c3_env_count : CreateEnv :=
  { c3_env with quota := Except.error c3_overquota_count }

/-- The C3 witness starting state. -/
def c3_st : CState :=
  { db := { volumes := [c3_volume], backups := [] },
    quotaOps := [], rpc := [], driverCalls := [] }

/-- The C4 failing environment: the reservation succeeds but
`db.backup_create` raises. -/
def c4_env : CreateEnv :=
  { service_enabled := true, quota := Except.ok 7,
    backup_create_ok := false, commit_ok := true, new_backup_id := "nb", now := 9 }

/-- The attachment held by the restarting host with no guest instance (C5). -/
def c5_attachment : Attachment :=
  { id := "a1", attached_host := some "h1", instance_uuid := none }

/-- A volume caught mid-restore at restart (C5). -/
def c5_volume : Volume :=
  { id := "z", size := 10, status := some "restoring-backup", host := "h1@lvm",
    display_description := some "", volume_attachment := [c5_attachment],
    volume_type_name := "ebs-data" }

/-- A backup caught mid-create at restart (C5). -/
def c5_backup : Backup :=
  { id := "bz", volume_id := "z", project_id := "p", status := "creating",
    display_name := none, display_description := none, parent_id := none,
    created_at := 1, size := some 0, host := "h1", service := some "drv",
    container := none, fail_reason := none, availability_zone := none }

/-- The store at restart time (C5). -/
def c5_db : DB :=
  { volumes := [c5_volume], backups := [c5_backup] }

/-- A 1 GB target volume whose description the C6 run overwrites. -/
def c6_volume : Volume :=
  { id := "w", size := 1, status := some "available", host := "h1@lvm",
    display_description := some "orig", volume_attachment := [],
    volume_type_name := "ebs-data" }

/-- A 2048 MB backup, too large for the 1 GB volume (C6). -/
def c6_backup : Backup :=
  { id := "bb", volume_id := "w", project_id := "p", status := "available",
    display_name := none, display_description := none, parent_id := none,
    created_at := 1, size := some 2048, host := "h1", service := some "drv",
    container := none, fail_reason := none, availability_zone := none }

/-- The C6 starting state. -/
def c6_st : CState :=
  { db := { volumes := [c6_volume], backups := [c6_backup] },
    quotaOps := [], rpc := [], driverCalls := [] }

/-- The C6 restore environment (no attachment is consulted). -/
def c6_env : RestoreEnv :=
  { instance_status := fun _ => "SHUTOFF", created_volume := c6_volume }

/-- The volume restored onto repeatedly in the C7 run. -/
def c7_volume : Volume :=
  { id := "v", size := 10, status := some "available", host := "h1@lvm",
    display_description := some "", volume_attachment := [],
    volume_type_name := "ebs-data" }

/-- First backup of the C7 volume. -/
def c7_b1 : Backup :=
  { id := "b1", volume_id := "v", project_id := "p", status := "available",
    display_name := none, display_description := some "d1", parent_id := none,
    created_at := 1, size := some 100, host := "h1", service := some "drv",
    container := none, fail_reason := none, availability_zone := none }

/-- Second backup of the C7 volume. -/
def c7_b2 : Backup :=
  { c7_b1 with id := "b2", display_description := some "d2", created_at := 2 }

/-- The C7 starting state. -/
def c7_st0 : CState :=
  { db := { volumes := [c7_volume], backups := [c7_b1, c7_b2] },
    quotaOps := [], rpc := [], driverCalls := [] }

/-- The C7 restore environment. -/
def c7_renv : RestoreEnv :=
  { instance_status := fun _ => "SHUTOFF", created_volume := c7_volume }

/-- The C7 executor environment: driver initialized, restore succeeds. -/
def c7_menv : MEnv :=
  { driver_initialized := true, backup_result := Except.ok (none, none),
    restore_error := none }

/-- The admin context of the C7 run. -/
def c7_ctx : Context :=
  { project_id := "p", is_admin := true, periodic := false }

/-- One full restore of the C7 run: the orchestrator call followed — on
success — by the executor call, as the dispatched cast delivers it. -/
def c7_restoreOnce (st : CState) (bid : String) : CState × Except Err Unit :=
  let r := API.restore c7_renv st bid (some "v")
  match r.2 with
  | Except.ok _ => BackupManager.restore_backup c7_ctx "h1" "drv" c7_menv r.1 bid "v"
  | Except.error e => (r.1, Except.error e)

/-- The C7 run: restore b1, restore b1 again, then restore b2. -/
def c7_run1 : CState × Except Err Unit := c7_restoreOnce c7_st0 "b1"

/-- Second restore of the C7 run. -/
def c7_run2 : CState × Except Err Unit := c7_restoreOnce c7_run1.1 "b1"

/-- Third restore of the C7 run. -/
def c7_run3 : CState × Except Err Unit := c7_restoreOnce c7_run2.1 "b2"

/-- The backup being restored in the C7 witness run. -/
def c7_wbackup : Backup := { c7_b1 with status := "restoring" }

/-- A sibling backup of the volume carrying a single trailing marker. -/
def c7_wother : Backup := { c7_b2 with display_description := some ("d2" ++ MAGICSTR) }

/-- The volume mid-restore in the C7 witness run. -/
def c7_wvolume : Volume :=
  { c7_volume with
    status := some "restoring-backup"
    display_description := some "available" }

/-- The C7 witness state. -/
def c7_wst : CState :=
  { db := { volumes := [c7_wvolume], backups := [c7_wbackup, c7_wother] },
    quotaOps := [], rpc := [], driverCalls := [] }

/-- The volume of the C8 run, back to `available` after the first delivery
completed. -/
def c8_volume : Volume :=
  { id := "u", size := 10, status := some "available", host := "h1@lvm",
    display_description := none, volume_attachment := [],
    volume_type_name := "ebs-data" }

/-- The backup of the C8 run, already `available` when the duplicate
`create_backup` delivery arrives. -/
def c8_backup : Backup :=
  { id := "bc", volume_id := "u", project_id := "p", status := "available",
    display_name := none, display_description := none, parent_id := none,
    created_at := 1, size := some 100, host := "h1", service := some "drv",
    container := none, fail_reason := none, availability_zone := none }

/-- The C8 starting state. -/
def c8_st : CState :=
  { db := { volumes := [c8_volume], backups := [c8_backup] },
    quotaOps := [], rpc := [], driverCalls := [] }

/-- The C8 executor environment. -/
def c8_menv : MEnv :=
  { driver_initialized := true, backup_result := Except.ok (none, none),
    restore_error := none }

/-- The C10 `OverQuota`: the overrun resource names neither `gigabytes` nor
`backups`. -/
def c10_overquota : OverQuota :=
  { overs := ["snapshots"], reserved := fun _ => 5, in_use := fun _ => 7,
    quotas := fun _ => 10 }

/-- The C10 environment: reservation raises the unmatched `OverQuota`. -/
def c10_env : CreateEnv :=
  { service_enabled := true, quota := Except.error c10_overquota,
    backup_create_ok := true, commit_ok := true, new_backup_id := "nb", now := 9 }

/-! # Helper lemmas -/

theorem foldl_pres {α β : Type} (step : β → α → β) (P : β → Prop) :
    ∀ (L : List α) (s : β), P s → (∀ s' a, a ∈ L → P s' → P (step s' a)) →
      P (L.foldl step s) := by
  intro L
  induction L with
  | nil => exact fun s hs _ => hs
  | cons x xs ih =>
      intro s hs hstep
      exact ih (step s x) (hstep s x (List.mem_cons_self x xs) hs)
        (fun s' a ha => hstep s' a (List.mem_cons_of_mem x ha))

theorem foldl_est {α β : Type} (step : β → α → β) (P : β → Prop) :
    ∀ (L : List α) (s : β) (x : α), x ∈ L → (∀ s', P (step s' x)) →
      (∀ s' a, a ∈ L → P s' → P (step s' a)) → P (L.foldl step s) := by
  intro L
  induction L with
  | nil => intro s x hx; cases hx
  | cons y ys ih =>
      intro s x hx hest hstep
      rcases List.mem_cons.mp hx with h | h
      · subst h
        exact foldl_pres step P ys (step s x) (hest s)
          (fun s' a ha => hstep s' a (List.mem_cons_of_mem x ha))
      · exact ih (step s y) x h hest
          (fun s' a ha => hstep s' a (List.mem_cons_of_mem y ha))

theorem mem_backup_update (db : DB) (i : String) (f : Backup → Backup) (r : Backup)
    (hr : r ∈ (backup_update db i f).backups) :
    (∃ x, x ∈ db.backups ∧ x.id ≠ i ∧ r = x) ∨
    (∃ x, x ∈ db.backups ∧ x.id = i ∧ r = f x) := by
  unfold backup_update at hr
  simp only [List.mem_map] at hr
  obtain ⟨x, hx, hxr⟩ := hr
  by_cases h : x.id = i
  · right
    refine ⟨x, hx, h, ?_⟩
    rw [← hxr]
    simp [h]
  · left
    refine ⟨x, hx, h, ?_⟩
    rw [← hxr]
    simp [h]

theorem mem_volume_update (db : DB) (i : String) (f : Volume → Volume) (r : Volume)
    (hr : r ∈ (volume_update db i f).volumes) :
    (∃ x, x ∈ db.volumes ∧ x.id ≠ i ∧ r = x) ∨
    (∃ x, x ∈ db.volumes ∧ x.id = i ∧ r = f x) := by
  unfold volume_update at hr
  simp only [List.mem_map] at hr
  obtain ⟨x, hx, hxr⟩ := hr
  by_cases h : x.id = i
  · right
    refine ⟨x, hx, h, ?_⟩
    rw [← hxr]
    simp [h]
  · left
    refine ⟨x, hx, h, ?_⟩
    rw [← hxr]
    simp [h]

/-! # Claim C9 -/

/-- Claim C9 counterexample: the claim says Import is dispatched as a
synchronous request/response (`call`) operation, but `BackupAPI.import_record`
(rpcapi.py line 88) issues `cctxt.cast(...)`: the dispatch kind is `cast`,
not `call`. -/
theorem c9_import_is_cast_counterexample :
    (BackupAPI.import_record_rpc "host-a").kind = RpcKind.cast ∧
    ¬ (BackupAPI.import_record_rpc "host-a").kind = RpcKind.call := by
  exact ⟨rfl, by decide⟩

/-- Claim C9 (amended): Export is dispatched to the executor host as a
synchronous request/response (`call`) operation returning the record blob,
while Import is dispatched as an asynchronous fire-and-forget `cast`;
host-failover forwarding for Import happens manager-side after control has
returned to the caller. -/
theorem c9_dispatch_kinds_amended : ∀ host : String,
    (BackupAPI.export_record_rpc host).kind = RpcKind.call ∧
    (BackupAPI.import_record_rpc host).kind = RpcKind.cast :=
  fun _ => ⟨rfl, rfl⟩

/-! # Claim C2 -/

theorem c2_no_break (t : Nat) : groupPollBreaks c2_volType (c2_read t) = false := rfl

theorem c2_finalAttempt : finalAttempt c2_volType c2_read = MOST_BACKUP_RETRIES - 1 := by
  unfold finalAttempt
  rw [List.find?_eq_none.mpr (fun t _ h => by rw [c2_no_break t] at h; cases h)]
  rfl

/-- Claim C2 counterexample: in a group run whose store trace shows member
`gb2` as `available` at every poll attempt (and `gb1` stuck in `creating`,
so the loop exhausts its 720 iterations), the timeout marking sets BOTH
members to `error` with the timeout reason — the member that had already
reached the terminal state `available` does not retain its prior outcome,
contradicting the claim that exactly the still-non-terminal members are
marked. -/
theorem c2_timeout_marks_all_counterexample :
    c2_read (finalAttempt c2_volType c2_read) = c2_members ∧
    c2_members.map (fun b => b.status) = ["creating", "available"] ∧
    (groupBackupFinal c2_volType c2_read).map (fun b => (b.id, b.status, b.fail_reason)) =
      [("gb1", "error", some "backing up isn't finished in 3600s"),
       ("gb2", "error", some "backing up isn't finished in 3600s")] := by
  refine ⟨rfl, rfl, ?_⟩
  unfold groupBackupFinal
  rw [c2_finalAttempt]
  rfl

/-- Claim C2 (amended): when the completion poll loop exhausts its 720
iterations (3600-second budget) without breaking, EVERY member backup of the
group — terminal or not — is set to status `error` with the fixed timeout
reason; members that had already reached `available` do not retain their
outcome (manager.py lines 1196-1204 update all of `inst_backup_kwargs`). -/
theorem c2_loop_exhaustion_amended (volType : String → String)
    (read : Nat → List BSnap)
    (h : finalAttempt volType read = MOST_BACKUP_RETRIES - 1) :
    ∀ b ∈ groupBackupFinal volType read,
      b.status = "error" ∧ b.fail_reason = some "backing up isn't finished in 3600s" := by
  intro b hb
  unfold groupBackupFinal at hb
  rw [h] at hb
  simp only [beq_self_eq_true, if_true, List.mem_map] at hb
  obtain ⟨a, _, rfl⟩ := hb
  exact ⟨rfl, rfl⟩

theorem c2_loop_exhaustion_amended_witness :
    finalAttempt c2_volType c2_read = MOST_BACKUP_RETRIES - 1 ∧
    (∀ b ∈ groupBackupFinal c2_volType c2_read,
      b.status = "error" ∧ b.fail_reason = some "backing up isn't finished in 3600s") :=
  ⟨c2_finalAttempt, c2_loop_exhaustion_amended c2_volType c2_read c2_finalAttempt⟩

end CmssCinder

namespace CmssCinder

/-! # Claim C6 -/

/-- Claim C6 counterexample: restoring 2048 MB backup `bb` onto the 1 GB
volume `w` fails with `InvalidVolume` as claimed, but the volume record is
NOT left unchanged — its description/stash field, originally `"orig"`, has
already been overwritten with the stashed status `"available"` before the
capacity check runs (api.py lines 330-341 perform the stash write before the
size comparison). -/
theorem c6_stash_overwritten_counterexample :
    (API.restore c6_env c6_st "bb" (some "w")).2 =
      Except.error (Err.invalidVolume "volume size is too small to restore backup") ∧
    c6_volume.display_description = some "orig" ∧
    (volume_get (API.restore c6_env c6_st "bb" (some "w")).1.db "w").map
      (fun v => v.display_description) = some (some "available") := by
  exact ⟨rfl, rfl, rfl⟩

/-- Claim C6 (amended): when the backup's size in MB exceeds the target
volume's size in GB times 1024, the call fails with `InvalidVolume`; the
backup record, the volume's status and the dispatch log are unchanged, but
the volume's description/stash field has by then already been overwritten
with the volume's pre-restore status — the stash write precedes the
capacity check. -/
theorem c6_capacity_check_amended (env : RestoreEnv) (st : CState)
    (backup_id vid : String) (b : Backup) (v : Volume) (s : Nat)
    (hb : backup_get st.db backup_id = some b)
    (hbs : b.status = "available")
    (hsz : b.size = some s)
    (hv : volume_get st.db vid = some v)
    (hvs : v.status = some "available")
    (hcap : s > v.size * 1024) :
    API.restore env st backup_id (some vid) =
      ({ st with db := volume_update st.db vid fun w => { w with display_description := v.status } },
        Except.error (Err.invalidVolume "volume size is too small to restore backup")) ∧
    (API.restore env st backup_id (some vid)).1.db.backups = st.db.backups ∧
    (API.restore env st backup_id (some vid)).1.db.volumes.map (fun w => w.status) =
      st.db.volumes.map (fun w => w.status) ∧
    (API.restore env st backup_id (some vid)).1.rpc = st.rpc := by
  have hmain : API.restore env st backup_id (some vid) =
      ({ st with db := volume_update st.db vid fun w => { w with display_description := v.status } },
        Except.error (Err.invalidVolume "volume size is too small to restore backup")) := by
    unfold API.restore
    rw [hb]
    simp only [hbs, hsz, hv, hvs]
    norm_num [withDb, hcap]
    exact fun h => absurd h (by decide)
  refine ⟨hmain, ?_, ?_, ?_⟩
  · rw [hmain]
    rfl
  · rw [hmain]
    show (volume_update st.db vid _).volumes.map _ = _
    unfold volume_update
    rw [List.map_map]
    exact List.map_congr_left (fun w _ => by by_cases h : w.id = vid <;> simp [h])
  · rw [hmain]

theorem c6_capacity_check_amended_witness :
    backup_get c6_st.db "bb" = some c6_backup ∧
    c6_backup.status = "available" ∧
    c6_backup.size = some 2048 ∧
    volume_get c6_st.db "w" = some c6_volume ∧
    c6_volume.status = some "available" ∧
    2048 > c6_volume.size * 1024 ∧
    API.restore c6_env c6_st "bb" (some "w") =
      ({ c6_st with db := volume_update c6_st.db "w" fun w => { w with display_description := c6_volume.status } },
        Except.error (Err.invalidVolume "volume size is too small to restore backup")) := by
  refine ⟨rfl, rfl, rfl, rfl, rfl, by decide, ?_⟩
  exact (c6_capacity_check_amended c6_env c6_st "bb" "w" c6_backup c6_volume 2048
    rfl rfl rfl rfl rfl (by decide)).1

end CmssCinder

namespace CmssCinder

/-! # Claim C4 -/

/-- Claim C4, evaluated at the failing input (code_bug): when
`QUOTAS.reserve` succeeds (reservation 7) but `db.backup_create` raises,
the cleanup handler (api.py lines 264-269) references the local `backup`
that was never assigned, so the caller receives `UnboundLocalError` instead
of the original insertion exception, and no destroy runs; the reservation
IS still rolled back (the `finally` clause runs), and no record exists
afterwards.  The claim's "the original exception is re-raised" is thereby
violated on this input. -/
theorem c4_insert_failure_run :
    (API.create c3_ctx c4_env none none "v" none false c3_st).2 =
      Except.error (Err.unboundLocal "backup") ∧
    (API.create c3_ctx c4_env none none "v" none false c3_st).1.quotaOps =
      [QuotaOp.reserve 7, QuotaOp.rollback 7] ∧
    (API.create c3_ctx c4_env none none "v" none false c3_st).1.db.backups = [] ∧
    Err.unboundLocal "backup" ≠ Err.dbError "backup_create" := by
  exact ⟨rfl, rfl, rfl, by decide⟩

/-! # Claim C3 -/

theorem overQuotaRaise_on_gigabytes (oq : OverQuota) (vsize : Nat)
    (rest : List String) :
    overQuotaRaise oq vsize ("backup_gigabytes" :: rest) =
      some (Err.volumeBackupSizeExceedsAvailableQuota vsize
        (oq.reserved "backup_gigabytes" + oq.in_use "backup_gigabytes")
        (oq.quotas "backup_gigabytes")) := by
  unfold overQuotaRaise
  rw [show strContains "backup_gigabytes" "gigabytes" = true from by decide]
  simp

theorem overQuotaRaise_on_backups (oq : OverQuota) (vsize : Nat)
    (rest : List String) :
    overQuotaRaise oq vsize ("backups" :: rest) =
      some (Err.backupLimitExceeded (oq.quotas "backups")) := by
  unfold overQuotaRaise
  rw [show strContains "backups" "gigabytes" = false from by decide,
      show strContains "backups" "backups" = true from by decide]
  simp

/-- Claim C3: when `QUOTAS.reserve` fails with an `OverQuota` whose overrun
resources are the two reserved ones (`backups` / `backup_gigabytes`), the
call raises a typed error classified by the overrun resource: the capacity
error — carrying the requested size, the consumed amount and the quota
limit — exactly when the overrun resource is the backup gigabytes, and the
count error — carrying the allowed limit — exactly when it is the backup
count; and the observable state is completely unchanged: no Backup record
is created and the volume's status is untouched (api.py lines 152-187 raise
before any store write). -/
theorem c3_overquota_typed_error (ctx : Context) (env : CreateEnv)
    (name description : Option String) (volume_id : String)
    (container : Option String) (incremental : Bool) (st : CState)
    (v : Volume) (oq : OverQuota) (o : String) (rest : List String)
    (hv : volume_get st.db volume_id = some v)
    (hvs : v.status = some "available")
    (hsvc : env.service_enabled = true)
    (hq : env.quota = Except.error oq)
    (hovers : oq.overs = o :: rest)
    (ho : o = "backups" ∨ o = "backup_gigabytes") :
    (API.create ctx env name description volume_id container incremental st).1 = st ∧
    (o = "backup_gigabytes" →
      (API.create ctx env name description volume_id container incremental st).2 =
        Except.error (Err.volumeBackupSizeExceedsAvailableQuota v.size
          (oq.reserved "backup_gigabytes" + oq.in_use "backup_gigabytes")
          (oq.quotas "backup_gigabytes"))) ∧
    (o = "backups" →
      (API.create ctx env name description volume_id container incremental st).2 =
        Except.error (Err.backupLimitExceeded (oq.quotas "backups"))) := by
  have hrun : ∀ e, overQuotaRaise oq v.size oq.overs = some e →
      API.create ctx env name description volume_id container incremental st =
        (st, Except.error e) := by
    intro e he
    unfold API.create
    rw [hv]
    simp [hvs, hsvc, hq, he]
  refine ⟨?_, ?_, ?_⟩
  · rcases ho with h | h <;> subst h
    · rw [hrun _ (by rw [hovers]; exact overQuotaRaise_on_backups oq v.size rest)]
    · rw [hrun _ (by rw [hovers]; exact overQuotaRaise_on_gigabytes oq v.size rest)]
  · intro h
    subst h
    rw [hrun _ (by rw [hovers]; exact overQuotaRaise_on_gigabytes oq v.size rest)]
  · intro h
    subst h
    rw [hrun _ (by rw [hovers]; exact overQuotaRaise_on_backups oq v.size rest)]

end CmssCinder

namespace CmssCinder

theorem c3_overquota_typed_error_witness :
    volume_get c3_st.db "v" = some c3_volume ∧
    c3_volume.status = some "available" ∧
    c3_env.quota = Except.error c3_overquota ∧
    c3_overquota.overs = "backup_gigabytes" :: [] ∧
    c3_env_count.quota = Except.error c3_overquota_count ∧
    c3_overquota_count.overs = "backups" :: [] ∧
    (API.create c3_ctx c3_env none none "v" none false c3_st).1 = c3_st ∧
    (API.create c3_ctx c3_env none none "v" none false c3_st).2 =
      Except.error (Err.volumeBackupSizeExceedsAvailableQuota c3_volume.size
        (c3_overquota.reserved "backup_gigabytes" + c3_overquota.in_use "backup_gigabytes")
        (c3_overquota.quotas "backup_gigabytes")) ∧
    (API.create c3_ctx c3_env_count none none "v" none false c3_st).2 =
      Except.error (Err.backupLimitExceeded (c3_overquota_count.quotas "backups")) :=
  have h1 := c3_overquota_typed_error c3_ctx c3_env none none "v" none false c3_st
    c3_volume c3_overquota "backup_gigabytes" [] rfl rfl rfl rfl rfl (Or.inr rfl)
  have h2 := c3_overquota_typed_error c3_ctx c3_env_count none none "v" none false c3_st
    c3_volume c3_overquota_count "backups" [] rfl rfl rfl rfl rfl (Or.inl rfl)
  ⟨rfl, rfl, rfl, rfl, rfl, rfl, h1.1, h1.2.1 rfl, h2.2.2 rfl⟩

/-! # Claim C10 -/

theorem overQuotaRaise_no_match (oq : OverQuota) (vsize : Nat) :
    ∀ l : List String,
      (∀ o ∈ l, strContains o "gigabytes" = false ∧ strContains o "backups" = false) →
      overQuotaRaise oq vsize l = none := by
  intro l
  induction l with
  | nil => intro; rfl
  | cons o rest ih =>
      intro h
      have ho := h o (List.mem_cons_self o rest)
      unfold overQuotaRaise
      rw [ho.1, ho.2]
      simp only [Bool.false_eq_true, if_false]
      exact ih (fun x hx => h x (List.mem_cons_of_mem o hx))

/-- Claim C10: in `API.create`, the `OverQuota` handler raises only when
some overrun resource name contains `gigabytes` or `backups`; for an
`OverQuota` whose overs match neither, the handler completes without
raising, control falls through to the store writes (the volume is set to
`backing-up` and the record is inserted), and the subsequent
`QUOTAS.commit(context, reservations)` references the local `reservations`
that was never assigned — the call terminates with `UnboundLocalError`, not
with a typed quota error, so the error branch is not total. -/
theorem c10_overquota_fallthrough (ctx : Context) (env : CreateEnv)
    (name description : Option String) (volume_id : String)
    (container : Option String) (st : CState) (v : Volume) (oq : OverQuota)
    (hper : ctx.periodic = false)
    (hv : volume_get st.db volume_id = some v)
    (hvs : v.status = some "available")
    (hsvc : env.service_enabled = true)
    (hq : env.quota = Except.error oq)
    (hno : ∀ o ∈ oq.overs, strContains o "gigabytes" = false ∧
      strContains o "backups" = false)
    (hcr : env.backup_create_ok = true) :
    (API.create ctx env name description volume_id container false st).2 =
      Except.error (Err.unboundLocal "reservations") ∧
    (∀ w ∈ (API.create ctx env name description volume_id container false st).1.db.volumes,
      w.id = volume_id → w.status = some "backing-up") := by
  have hnone := overQuotaRaise_no_match oq v.size oq.overs hno
  have hrun : API.create ctx env name description volume_id container false st =
      createAfterQuota ctx env description volume_id name container false v none st := by
    unfold API.create
    rw [hv]
    simp [hvs, hsvc, hq, hnone]
  rw [hrun]
  unfold createAfterQuota
  rw [hper]
  simp only [Bool.false_eq_true, if_false]
  have hres : resolveParentId false false
      (backup_get_all_by_volume st.db volume_id) = Except.ok none := rfl
  rw [hres]
  simp only [hcr]
  unfold createExceptHandler
  simp only [if_true]
  constructor
  · rfl
  · intro w hw hid
    have hw' : w ∈ (volume_update st.db volume_id
        (fun x => { x with status := some "backing-up" })).volumes := hw
    rcases mem_volume_update _ _ _ _ hw' with ⟨x, _, hxne, rfl⟩ | ⟨x, _, _, rfl⟩
    · exact absurd hid hxne
    · rfl

end CmssCinder

namespace CmssCinder

theorem c10_overquota_fallthrough_witness :
    c3_ctx.periodic = false ∧
    volume_get c3_st.db "v" = some c3_volume ∧
    c3_volume.status = some "available" ∧
    c10_env.service_enabled = true ∧
    c10_env.quota = Except.error c10_overquota ∧
    (∀ o ∈ c10_overquota.overs, strContains o "gigabytes" = false ∧
      strContains o "backups" = false) ∧
    c10_env.backup_create_ok = true ∧
    ((API.create c3_ctx c10_env none none "v" none false c3_st).2 =
      Except.error (Err.unboundLocal "reservations") ∧
     (∀ w ∈ (API.create c3_ctx c10_env none none "v" none false c3_st).1.db.volumes,
        w.id = "v" → w.status = some "backing-up")) :=
  ⟨rfl, rfl, rfl, rfl, rfl, by decide, rfl,
    c10_overquota_fallthrough c3_ctx c10_env none none "v" none c3_st
      c3_volume c10_overquota rfl rfl rfl rfl rfl (by decide) rfl⟩

end CmssCinder

namespace CmssCinder

/-! # Claim C8 -/

/-- Claim C8 counterexample: a duplicate `create_backup` delivery for backup
`bc` that has already completed (backup `available`, its volume back to
`available`) is NOT safely ignored: the precondition check (manager.py lines
282-292) sets the completed backup's status to `error` with a fail reason
before raising `InvalidVolume` — the backup's existing state is altered. -/
theorem c8_duplicate_mutates_counterexample :
    backup_get c8_st.db "bc" = some c8_backup ∧
    c8_backup.status = "available" ∧
    (BackupManager.create_backup "h1" "drv" "az1" c8_menv c8_st "bc").2 =
      Except.error (Err.invalidVolume
        "Create backup aborted, expected volume status backing-up") ∧
    (backup_get (BackupManager.create_backup "h1" "drv" "az1" c8_menv c8_st "bc").1.db
      "bc").map (fun b => b.status) = some "error" := by
  exact ⟨rfl, rfl, rfl, rfl⟩

/-- Claim C8 (amended): a duplicate `createBackup` delivery for a backup
whose status has already left `creating` is rejected by the precondition
checks rather than re-executed — the driver's backup capability is not
invoked again and the call raises — but it is not a harmless no-op: the
delivery always rewrites the backup's status to `error` (and, when the
volume still reads `backing-up`, also resets the volume to `available`). -/
theorem c8_duplicate_amended (selfHost driverName az : String) (env : MEnv)
    (st : CState) (backup_id : String) (b : Backup) (v : Volume)
    (hb : backup_get st.db backup_id = some b)
    (hv : volume_get st.db b.volume_id = some v)
    (hns : b.status ≠ "creating") :
    (∃ e, (BackupManager.create_backup selfHost driverName az env st backup_id).2 =
      Except.error e) ∧
    (BackupManager.create_backup selfHost driverName az env st backup_id).1.driverCalls =
      st.driverCalls ∧
    (∀ r ∈ (BackupManager.create_backup selfHost driverName az env st backup_id).1.db.backups,
      r.id = backup_id → r.status = "error") := by
  have hrows : ∀ (d : DB) (f : Backup → Backup), (∀ x, (f x).status = "error") →
      ∀ r ∈ (backup_update d backup_id f).backups, r.id = backup_id →
        r.status = "error" := by
    intro d f hf r hr hid
    rcases mem_backup_update d backup_id f r hr with ⟨x, _, hxne, rfl⟩ | ⟨x, _, _, rfl⟩
    · exact absurd hid hxne
    · exact hf x
  unfold BackupManager.create_backup
  rw [hb]
  by_cases hvb : v.status = some "backing-up"
  · have hbne : (b.status != "creating") = true := bne_iff_ne.mpr hns
    simp only [hv, hvb, bne_self_eq_false, Bool.false_eq_true, if_false, hbne, if_true]
    refine ⟨⟨_, rfl⟩, rfl, ?_⟩
    exact hrows _ _ (fun x => rfl)
  · have hvne : (v.status != some "backing-up") = true := bne_iff_ne.mpr hvb
    simp only [hv, hvne, if_true]
    refine ⟨⟨_, rfl⟩, rfl, ?_⟩
    exact hrows _ _ (fun x => rfl)

theorem c8_duplicate_amended_witness :
    backup_get c8_st.db "bc" = some c8_backup ∧
    volume_get c8_st.db c8_backup.volume_id = some c8_volume ∧
    c8_backup.status ≠ "creating" ∧
    ((∃ e, (BackupManager.create_backup "h1" "drv" "az1" c8_menv c8_st "bc").2 =
        Except.error e) ∧
     (BackupManager.create_backup "h1" "drv" "az1" c8_menv c8_st "bc").1.driverCalls =
        c8_st.driverCalls ∧
     (∀ r ∈ (BackupManager.create_backup "h1" "drv" "az1" c8_menv c8_st "bc").1.db.backups,
        r.id = "bc" → r.status = "error")) :=
  ⟨rfl, rfl, by decide,
    c8_duplicate_amended "h1" "drv" "az1" c8_menv c8_st "bc" c8_backup c8_volume
      rfl rfl (by decide)⟩

end CmssCinder

namespace CmssCinder

/-! # Claim C1 -/

theorem pyMax_foldl_spec {α : Type} (key : α → Nat) :
    ∀ (xs : List α) (a : α),
      (xs.foldl (fun cur y => if key y > key cur then y else cur) a = a ∨
       xs.foldl (fun cur y => if key y > key cur then y else cur) a ∈ xs) ∧
      key a ≤ key (xs.foldl (fun cur y => if key y > key cur then y else cur) a) ∧
      (∀ x ∈ xs, key x ≤ key (xs.foldl (fun cur y => if key y > key cur then y else cur) a)) := by
  intro xs
  induction xs with
  | nil =>
      intro a
      exact ⟨Or.inl rfl, le_refl _, fun x hx => absurd hx (List.not_mem_nil x)⟩
  | cons y ys ih =>
      intro a
      by_cases hk : key y > key a
      · simp only [List.foldl_cons, if_pos hk]
        obtain ⟨hmem, hle, hall⟩ := ih y
        refine ⟨?_, ?_, ?_⟩
        · rcases hmem with h | h
          · refine Or.inr ?_
            rw [h]
            exact List.mem_cons_self y ys
          · exact Or.inr (List.mem_cons_of_mem y h)
        · exact le_trans (le_of_lt hk) hle
        · intro x hx
          rcases List.mem_cons.mp hx with rfl | hx'
          · exact hle
          · exact hall x hx'
      · simp only [List.foldl_cons, if_neg hk]
        obtain ⟨hmem, hle, hall⟩ := ih a
        refine ⟨?_, hle, ?_⟩
        · rcases hmem with h | h
          · exact Or.inl h
          · exact Or.inr (List.mem_cons_of_mem y h)
        · intro x hx
          rcases List.mem_cons.mp hx with rfl | hx'
          · exact le_trans (Nat.le_of_not_lt hk) hle
          · exact hall x hx'

theorem pyMax_spec {α : Type} (key : α → Nat) (l : List α) (c : α)
    (h : pyMax key l = some c) : c ∈ l ∧ ∀ x ∈ l, key x ≤ key c := by
  cases l with
  | nil => cases h
  | cons x xs =>
      unfold pyMax at h
      injection h with h
      subst h
      obtain ⟨hmem, hle, hall⟩ := pyMax_foldl_spec key xs x
      constructor
      · rcases hmem with h | h
        · rw [h]
          exact List.mem_cons_self x xs
        · exact List.mem_cons_of_mem x h
      · intro y hy
        rcases List.mem_cons.mp hy with rfl | hy'
        · exact hle
        · exact hall y hy'

/-- Claim C1: parent selection for `API.create` (api.py lines 189-239).  A
periodic or non-incremental call always yields a null parent.  An
incremental non-periodic call ignores the backups whose description carries
the periodic tag (`normalBackups`); when no normal backup exists the parent
is null (full backup, no error); otherwise the candidate is a normal backup
with the latest creation timestamp and: status `creating` raises
`InvalidBackup`; status `available` makes its id the parent; any other
status silently falls back to a null parent. -/
theorem c1_chain_resolution (periodic incremental : Bool) (bs : List Backup) :
    ((periodic = true ∨ incremental = false) →
        resolveParentId periodic incremental bs = Except.ok none) ∧
    (periodic = false → incremental = true →
      ((normalBackups bs = [] →
          resolveParentId periodic incremental bs = Except.ok none) ∧
       (∀ c, pyMax (fun b => b.created_at) (normalBackups bs) = some c →
          c ∈ normalBackups bs ∧
          (∀ x ∈ normalBackups bs, x.created_at ≤ c.created_at) ∧
          (c.status = "creating" → resolveParentId periodic incremental bs =
            Except.error (Err.invalidBackup "The parent backup is creating.")) ∧
          (c.status = "available" → resolveParentId periodic incremental bs =
            Except.ok (some c.id)) ∧
          (c.status ≠ "creating" → c.status ≠ "available" →
            resolveParentId periodic incremental bs = Except.ok none)))) := by
  constructor
  · rintro (h | h)
    · subst h; rfl
    · subst h
      cases periodic <;> rfl
  · intro hp hi
    subst hp
    subst hi
    constructor
    · intro hn
      have hlat : resolveLatest false true bs = none := by
        unfold resolveLatest
        cases bs with
        | nil => rfl
        | cons y ys => simp [hn]
      unfold resolveParentId
      rw [hlat]
    · intro c hc
      have hspec := pyMax_spec (fun b => b.created_at) (normalBackups bs) c hc
      have hbs_ne : bs.isEmpty = false := by
        cases bs with
        | nil => rw [show normalBackups [] = [] from rfl] at hc; cases hc
        | cons y ys => rfl
      have hn_ne : (normalBackups bs).isEmpty = false := by
        cases hnb : normalBackups bs with
        | nil => rw [hnb] at hc; cases hc
        | cons y ys => rfl
      have hlat : resolveLatest false true bs = some c := by
        unfold resolveLatest
        simp only [if_false, Bool.false_eq_true, hbs_ne, hn_ne, if_true]
        exact hc
      refine ⟨hspec.1, hspec.2, ?_, ?_, ?_⟩
      · intro hcr
        unfold resolveParentId
        rw [hlat]
        simp [hcr]
      · intro hav
        unfold resolveParentId
        rw [hlat]
        simp [hav]
      · intro hne1 hne2
        unfold resolveParentId
        rw [hlat]
        simp [beq_eq_false_iff_ne.mpr hne2, beq_eq_false_iff_ne.mpr hne1]

theorem c1_chain_resolution_witness :
    pyMax (fun b => b.created_at) (normalBackups [c1_older, c1_parent]) = some c1_parent ∧
    c1_parent.status = "available" ∧
    resolveParentId false true [c1_older, c1_parent] = Except.ok (some c1_parent.id) := by
  refine ⟨by decide, rfl, ?_⟩
  exact ((((c1_chain_resolution false true [c1_older, c1_parent]).2 rfl rfl).2
    c1_parent (by decide)).2.2.2.1) rfl

end CmssCinder

namespace CmssCinder

/-! # Claim C5 -/

theorem initHostVolumeStep_backups (h : String) (db : DB) (v : Volume) :
    (initHostVolumeStep h db v).backups = db.backups := by
  unfold initHostVolumeStep
  split
  · rfl
  · split <;> split <;> rfl

theorem initHostBackupStep_volumes (rd : DB → String → DB)
    (hrd : ∀ d i, (rd d i).volumes = d.volumes) (db : DB) (b : Backup) :
    (initHostBackupStep rd db b).volumes = db.volumes := by
  unfold initHostBackupStep
  split
  · rfl
  · split
    · rfl
    · split
      · exact hrd db b.id
      · rfl

/-- Claim C5: on the startup sweep, a host-owned backup stuck in `creating`
is forced to `error` with the incomplete-backup reason, and a host-owned
volume stuck in `restoring-backup` whose attachments are host-held with no
guest instance is forced to `error_restoring` (manager.py lines 203-263),
before the service starts accepting new work. -/
theorem c5_startup_sweep (selfHost : String) (resumeDelete : DB → String → DB)
    (db : DB) (b : Backup) (v : Volume)
    (hrdv : ∀ d i, (resumeDelete d i).volumes = d.volumes)
    (hrdb : ∀ (d : DB) (i : String) (r : Backup), r.id ≠ i →
      (r ∈ (resumeDelete d i).backups ↔ r ∈ d.backups))
    (hb : b ∈ db.backups) (hbh : b.host = selfHost) (hbs : b.status = "creating")
    (hbu : ∀ x ∈ db.backups, x.id = b.id → x = b)
    (hv : v ∈ db.volumes) (hvh : extract_host_hostpart v.host = selfHost)
    (hvs : v.status = some "restoring-backup")
    (hatt : v.volume_attachment ≠ [])
    (hatt2 : ∀ a ∈ v.volume_attachment,
      a.attached_host = some selfHost ∧ a.instance_uuid = none)
    (hvu : ∀ x ∈ db.volumes, x.id = v.id → x = v) :
    (∀ r ∈ (BackupManager.init_host selfHost resumeDelete db).backups,
        r.id = b.id → r.status = "error" ∧
          r.fail_reason = some "incomplete backup reset on manager restart") ∧
    (∀ r ∈ (BackupManager.init_host selfHost resumeDelete db).volumes,
        r.id = v.id → r.status = some "error_restoring") := by
  have hne : v.volume_attachment.isEmpty = false := by
    cases hva : v.volume_attachment with
    | nil => exact absurd hva hatt
    | cons _ _ => rfl
  -- the step on v always forces error_restoring
  have hstepv : ∀ s : DB, initHostVolumeStep selfHost s v =
      volume_update (detachHostAttachments s selfHost v.id) v.id
        (fun w => { w with status := some "error_restoring" }) := by
    intro s
    unfold initHostVolumeStep
    rw [hne, hvs]
    simp
  -- the step on b always forces error + reason
  have hstepb : ∀ s : DB, initHostBackupStep resumeDelete s b =
      backup_update s b.id (fun x => { x with
        status := "error"
        fail_reason := some "incomplete backup reset on manager restart" }) := by
    intro s
    unfold initHostBackupStep
    rw [hbs]
    simp
  -- row-keeping helpers for updates keyed on a different id
  have hkeepv : ∀ (s : DB) (i : String) (f : Volume → Volume), i ≠ v.id →
      (∀ r ∈ s.volumes, r.id = v.id → r.status = some "error_restoring") →
      ∀ r ∈ (volume_update s i f).volumes, r.id = v.id →
        (∀ x, (f x).id = x.id) →
        r.status = some "error_restoring" := by
    intro s i f hi hs r hr hid hfid
    rcases mem_volume_update s i f r hr with ⟨x, hx, _, rfl⟩ | ⟨x, hx, hxi, rfl⟩
    · exact hs _ hx hid
    · exfalso
      apply hi
      rw [← hxi]
      rw [hfid x] at hid
      rw [hid]
  have hkeepb : ∀ (s : DB) (i : String) (f : Backup → Backup), i ≠ b.id →
      (∀ r ∈ s.backups, r.id = b.id → r.status = "error" ∧
        r.fail_reason = some "incomplete backup reset on manager restart") →
      ∀ r ∈ (backup_update s i f).backups, r.id = b.id →
        (∀ x, (f x).id = x.id) →
        (r.status = "error" ∧
          r.fail_reason = some "incomplete backup reset on manager restart") := by
    intro s i f hi hs r hr hid hfid
    rcases mem_backup_update s i f r hr with ⟨x, hx, _, rfl⟩ | ⟨x, hx, hxi, rfl⟩
    · exact hs _ hx hid
    · exfalso
      apply hi
      rw [← hxi]
      rw [hfid x] at hid
      rw [hid]
  unfold BackupManager.init_host
  -- the volume phase
  have hvol_est : ∀ s : DB,
      ∀ r ∈ (initHostVolumeStep selfHost s v).volumes, r.id = v.id →
        r.status = some "error_restoring" := by
    intro s r hr hid
    rw [hstepv s] at hr
    rcases mem_volume_update _ _ _ _ hr with ⟨x, _, hxne, rfl⟩ | ⟨x, _, _, rfl⟩
    · exact absurd hid hxne
    · rfl
  have hvol_pres : ∀ (s : DB) (a : Volume), a ∈ volume_get_all_by_host db selfHost →
      (∀ r ∈ s.volumes, r.id = v.id → r.status = some "error_restoring") →
      ∀ r ∈ (initHostVolumeStep selfHost s a).volumes, r.id = v.id →
        r.status = some "error_restoring" := by
    intro s a ha hs
    have hamem : a ∈ db.volumes := (List.mem_filter.mp ha).1
    by_cases haid : a.id = v.id
    · have : a = v := hvu a hamem haid
      subst this
      exact hvol_est s
    · intro r hr hid
      unfold initHostVolumeStep at hr
      cases hae : a.volume_attachment.isEmpty
      · simp only [hae, Bool.false_eq_true, if_false] at hr
        by_cases hab : a.status = some "backing-up"
        · simp only [hab,
            show ((some "backing-up" : Option String) == some "backing-up") = true from by decide,
            show ((some "backing-up" : Option String) == some "restoring-backup") = false from by decide,
            if_true, Bool.false_eq_true, if_false] at hr
          unfold detachHostAttachments at hr
          exact hkeepv _ _ _ haid hs r hr hid (fun x => rfl)
        · have f1 : (a.status == some "backing-up") = false := beq_eq_false_iff_ne.mpr hab
          by_cases har : a.status = some "restoring-backup"
          · simp only [har,
              show ((some "restoring-backup" : Option String) == some "backing-up") = false from by decide,
              show ((some "restoring-backup" : Option String) == some "restoring-backup") = true from by decide,
              if_true, Bool.false_eq_true, if_false] at hr
            refine hkeepv _ _ _ haid ?_ r hr hid (fun x => rfl)
            intro r' hr' hid'
            unfold detachHostAttachments at hr'
            exact hkeepv _ _ _ haid hs r' hr' hid' (fun x => rfl)
          · have f2 : (a.status == some "restoring-backup") = false := beq_eq_false_iff_ne.mpr har
            simp only [f1, f2, Bool.false_eq_true, if_false] at hr
            exact hs r hr hid
      · simp only [hae, if_true] at hr
        exact hs r hr hid
  have hv_in : v ∈ volume_get_all_by_host db selfHost := by
    unfold volume_get_all_by_host
    rw [List.mem_filter]
    exact ⟨hv, by rw [hvh]; exact beq_self_eq_true selfHost⟩
  have hPv1 : ∀ r ∈ ((volume_get_all_by_host db selfHost).foldl
      (initHostVolumeStep selfHost) db).volumes, r.id = v.id →
        r.status = some "error_restoring" :=
    foldl_est (initHostVolumeStep selfHost)
      (fun s => ∀ r ∈ s.volumes, r.id = v.id → r.status = some "error_restoring")
      (volume_get_all_by_host db selfHost) db v hv_in
      (fun s => hvol_est s)
      (fun s a ha hs => hvol_pres s a ha hs)
  have hdb1b : ((volume_get_all_by_host db selfHost).foldl
      (initHostVolumeStep selfHost) db).backups = db.backups :=
    foldl_pres (initHostVolumeStep selfHost) (fun s => s.backups = db.backups)
      (volume_get_all_by_host db selfHost) db rfl
      (fun s a _ hs => (initHostVolumeStep_backups selfHost s a).trans hs)
  -- the backup phase
  set db1 := (volume_get_all_by_host db selfHost).foldl (initHostVolumeStep selfHost) db
  have hb_in : b ∈ backup_get_all_by_host db1 selfHost := by
    unfold backup_get_all_by_host
    rw [List.mem_filter, hdb1b]
    exact ⟨hb, by rw [hbh]; exact beq_self_eq_true selfHost⟩
  have hbak_est : ∀ s : DB,
      ∀ r ∈ (initHostBackupStep resumeDelete s b).backups, r.id = b.id →
        r.status = "error" ∧
          r.fail_reason = some "incomplete backup reset on manager restart" := by
    intro s r hr hid
    rw [hstepb s] at hr
    rcases mem_backup_update _ _ _ _ hr with ⟨x, _, hxne, rfl⟩ | ⟨x, _, _, rfl⟩
    · exact absurd hid hxne
    · exact ⟨rfl, rfl⟩
  have hbak_pres : ∀ (s : DB) (a : Backup), a ∈ backup_get_all_by_host db1 selfHost →
      (∀ r ∈ s.backups, r.id = b.id → r.status = "error" ∧
        r.fail_reason = some "incomplete backup reset on manager restart") →
      ∀ r ∈ (initHostBackupStep resumeDelete s a).backups, r.id = b.id →
        r.status = "error" ∧
          r.fail_reason = some "incomplete backup reset on manager restart" := by
    intro s a ha hs
    have hamem : a ∈ db.backups := by
      have := (List.mem_filter.mp ha).1
      rw [hdb1b] at this
      exact this
    by_cases haid : a.id = b.id
    · have : a = b := hbu a hamem haid
      subst this
      exact hbak_est s
    · intro r hr hid
      unfold initHostBackupStep at hr
      by_cases hac : a.status = "creating"
      · simp only [hac, show (("creating" : String) == "creating") = true from by decide,
          if_true] at hr
        exact hkeepb _ _ _ haid hs r hr hid (fun x => rfl)
      · have g1 : (a.status == "creating") = false := beq_eq_false_iff_ne.mpr hac
        by_cases har : a.status = "restoring"
        · simp only [har, show (("restoring" : String) == "creating") = false from by decide,
            show (("restoring" : String) == "restoring") = true from by decide,
            if_true, Bool.false_eq_true, if_false] at hr
          exact hkeepb _ _ _ haid hs r hr hid (fun x => rfl)
        · have g2 : (a.status == "restoring") = false := beq_eq_false_iff_ne.mpr har
          by_cases had : a.status = "deleting"
          · simp only [had, show (("deleting" : String) == "creating") = false from by decide,
              show (("deleting" : String) == "restoring") = false from by decide,
              show (("deleting" : String) == "deleting") = true from by decide,
              if_true, Bool.false_eq_true, if_false] at hr
            have hrmem : r ∈ s.backups :=
              (hrdb s a.id r (by rw [hid]; exact fun hc => haid hc.symm)).mp hr
            exact hs r hrmem hid
          · have g3 : (a.status == "deleting") = false := beq_eq_false_iff_ne.mpr had
            simp only [g1, g2, g3, Bool.false_eq_true, if_false] at hr
            exact hs r hr hid
  constructor
  · exact foldl_est (initHostBackupStep resumeDelete)
      (fun s => ∀ r ∈ s.backups, r.id = b.id → r.status = "error" ∧
        r.fail_reason = some "incomplete backup reset on manager restart")
      (backup_get_all_by_host db1 selfHost) db1 b hb_in
      (fun s => hbak_est s)
      (fun s a ha hs => hbak_pres s a ha hs)
  · have hvols : ((backup_get_all_by_host db1 selfHost).foldl
        (initHostBackupStep resumeDelete) db1).volumes = db1.volumes :=
      foldl_pres (initHostBackupStep resumeDelete) (fun s => s.volumes = db1.volumes)
        (backup_get_all_by_host db1 selfHost) db1 rfl
        (fun s a _ hs => (initHostBackupStep_volumes resumeDelete hrdv s a).trans hs)
    intro r hr hid
    rw [hvols] at hr
    exact hPv1 r hr hid

end CmssCinder

namespace CmssCinder

theorem c5_startup_sweep_witness :
    c5_backup ∈ c5_db.backups ∧ c5_backup.status = "creating" ∧
    c5_volume ∈ c5_db.volumes ∧ c5_volume.status = some "restoring-backup" ∧
    c5_volume.volume_attachment ≠ [] ∧
    ((∀ r ∈ (BackupManager.init_host "h1" (fun d _ => d) c5_db).backups,
        r.id = c5_backup.id → r.status = "error" ∧
          r.fail_reason = some "incomplete backup reset on manager restart") ∧
     (∀ r ∈ (BackupManager.init_host "h1" (fun d _ => d) c5_db).volumes,
        r.id = c5_volume.id → r.status = some "error_restoring")) := by
  refine ⟨by decide, rfl, by decide, rfl, by decide, ?_⟩
  exact c5_startup_sweep "h1" (fun d _ => d) c5_db c5_backup c5_volume
    (fun d i => rfl) (fun d i r h => Iff.rfl)
    (by decide) rfl rfl (by decide)
    (by decide) (by decide) rfl (by decide) (by decide) (by decide)

end CmssCinder

namespace CmssCinder

/-! # Claim C7 -/

/-- Claim C7 counterexample: three successful restores on volume `v` —
backup `b1` twice, then backup `b2`.  The second restore of `b1` appends the
marker to the stale description that still carried it, leaving `b1` with a
doubled marker; the restore of `b2` strips only one trailing marker from
`b1`, so after `b2`'s successful restore BOTH `b1` and `b2` carry the
active marker — `b2` is not the unique marker carrier, contradicting the
claim's "regardless of how many restores of v's backups were executed
before". -/
theorem c7_marker_not_unique_counterexample :
    c7_run1.2 = Except.ok () ∧ c7_run2.2 = Except.ok () ∧ c7_run3.2 = Except.ok () ∧
    (c7_run3.1.db.backups.filter (fun b => b.volume_id == "v" &&
      hasMarkerSuffix b.display_description)).map (fun b => b.id) = ["b1", "b2"] := by
  exact ⟨rfl, rfl, rfl, rfl⟩

end CmssCinder

namespace CmssCinder

theorem append_isEmpty_false (d : String) : (d ++ MAGICSTR).isEmpty = false := by
  apply Bool.eq_false_iff.mpr
  intro he
  have h := (String.isEmpty_iff _).mp he
  have h2 : (d ++ MAGICSTR).data = ("" : String).data := congrArg String.data h
  have h3 : (d ++ MAGICSTR).data = d.data ++ MAGICSTR.data := rfl
  rw [h3] at h2
  simp [MAGICSTR] at h2

theorem pyLastN_append (d : String) : pyLastN 6 (d ++ MAGICSTR) = MAGICSTR := by
  unfold pyLastN
  have h1 : (d ++ MAGICSTR).data = d.data ++ MAGICSTR.data := rfl
  have h2 : MAGICSTR.data.length = 6 := rfl
  rw [h1, List.length_append, h2, Nat.add_sub_cancel, List.drop_left]

theorem hasMarkerSuffix_append (d : String) :
    hasMarkerSuffix (some (d ++ MAGICSTR)) = true := by
  unfold hasMarkerSuffix pyTruthyStr
  simp only [Option.getD_some, pyLastN_append, append_isEmpty_false]
  simp

theorem find?_id_self {l : List Backup} (hp : l.Pairwise (fun x y => x.id ≠ y.id))
    {r : Backup} (hr : r ∈ l) : l.find? (fun x => x.id == r.id) = some r := by
  induction l with
  | nil => cases hr
  | cons a as ih =>
      rcases List.mem_cons.mp hr with rfl | hr'
      · exact List.find?_cons_of_pos _ (beq_self_eq_true _)
      · have hane : a.id ≠ r.id := (List.pairwise_cons.mp hp).1 r hr'
        rw [List.find?_cons_of_neg _ (by simp [hane])]
        exact ih (List.pairwise_cons.mp hp).2 hr'

theorem stripFold_eq_map (L : List Backup) :
    ∀ db : DB, L.Pairwise (fun x y => x.id ≠ y.id) →
      (stripFold L db).backups = db.backups.map (stripOutcome L) := by
  induction L with
  | nil =>
      intro db _
      show db.backups = db.backups.map (stripOutcome [])
      have h : db.backups.map (stripOutcome []) = db.backups.map (fun r => r) :=
        List.map_congr_left (fun r _ => rfl)
      rw [h, List.map_id']
  | cons x L' ih =>
      intro db hp
      have hpx : ∀ y ∈ L', x.id ≠ y.id := (List.pairwise_cons.mp hp).1
      have hp' : L'.Pairwise (fun a c => a.id ≠ c.id) := (List.pairwise_cons.mp hp).2
      show (stripFold L' (stripStep db x)).backups = db.backups.map (stripOutcome (x :: L'))
      rw [ih (stripStep db x) hp']
      rcases hxd : x.display_description with _ | d
      · have hss : stripStep db x = db := by unfold stripStep; rw [hxd]
        rw [hss]
        apply List.map_congr_left
        intro r _
        unfold stripOutcome
        by_cases hri : x.id = r.id
        · rw [List.find?_cons_of_pos _ (by simp [hri]),
            List.find?_eq_none.mpr
              (fun y hy hbe => hpx y hy (hri.trans (eq_of_beq hbe).symm))]
          simp only [hxd]
        · rw [List.find?_cons_of_neg _ (by simp [hri])]
      · by_cases hcar : (!d.isEmpty && pyLastN 6 d == MAGICSTR) = true
        · have hss : stripStep db x = backup_update db x.id
              (fun bk => { bk with display_description := some (pyDropLastN 6 d) }) := by
            unfold stripStep
            simp only [hxd, hcar, if_true]
          rw [hss]
          show ((backup_update db x.id _).backups).map _ = _
          unfold backup_update
          rw [List.map_map]
          apply List.map_congr_left
          intro r _
          show stripOutcome L' (if r.id == x.id then
            { r with display_description := some (pyDropLastN 6 d) } else r) =
            stripOutcome (x :: L') r
          by_cases hri : r.id = x.id
          · rw [if_pos (by simp [hri])]
            unfold stripOutcome
            rw [List.find?_cons_of_pos _ (by simp [hri]),
              List.find?_eq_none.mpr
                (fun y hy hbe => hpx y hy ((eq_of_beq hbe).trans hri).symm)]
            simp only [hxd, hcar, if_true]
          · rw [if_neg (by simp [hri])]
            unfold stripOutcome
            rw [List.find?_cons_of_neg _
              (by simp only [beq_iff_eq]; exact fun h => hri h.symm)]
        · have hcar' : (!d.isEmpty && pyLastN 6 d == MAGICSTR) = false :=
            Bool.eq_false_iff.mpr hcar
          have hss : stripStep db x = db := by
            unfold stripStep
            simp only [hxd, hcar', Bool.false_eq_true, if_false]
          rw [hss]
          apply List.map_congr_left
          intro r _
          unfold stripOutcome
          by_cases hri : x.id = r.id
          · rw [List.find?_cons_of_pos _ (by simp [hri]),
              List.find?_eq_none.mpr
                (fun y hy hbe => hpx y hy (hri.trans (eq_of_beq hbe).symm))]
            simp only [hxd, hcar', Bool.false_eq_true, if_false]
          · rw [List.find?_cons_of_neg _ (by simp [hri])]

end CmssCinder

namespace CmssCinder

/-- Claim C7 (amended): after a successful `RestoreBackup` of backup `b` to
volume `v`, the marker is appended to `b`'s description and one trailing
marker occurrence is stripped from every other fetched backup of `v`;
PROVIDED no backup of `v` carried a doubled trailing marker beforehand, `b`
is left the unique backup of `v` whose description ends in the marker.
Without that proviso uniqueness can fail: repeated restores of the same
backup leave a doubled marker (see the counterexample), because the strip
loop removes only one trailing occurrence and the append uses the stale
pre-strip description (manager.py lines 579-609). -/
theorem c7_active_marker_amended (ctx : Context) (selfHost driverName : String)
    (env : MEnv) (st : CState) (backup_id volume_id : String)
    (b : Backup) (v : Volume)
    (hadmin : ctx.is_admin = true)
    (hb : backup_get st.db backup_id = some b)
    (hbid : b.id = backup_id)
    (hv : volume_get st.db volume_id = some v)
    (hvs : v.status = some "restoring-backup")
    (hbs : b.status = "restoring")
    (hbvol : b.volume_id = volume_id)
    (hsvc : mapServiceToDriver b.service = some driverName)
    (hdrv : env.driver_initialized = true)
    (hres : env.restore_error = none)
    (hpair : st.db.backups.Pairwise (fun x y => x.id ≠ y.id))
    (hnd : ∀ x ∈ st.db.backups, x.volume_id = volume_id →
      hasMarkerSuffix x.display_description = true →
      hasMarkerSuffix (some (pyDropLastN 6 (x.display_description.getD ""))) = false) :
    (BackupManager.restore_backup ctx selfHost driverName env st backup_id volume_id).2 =
      Except.ok () ∧
    (∀ r ∈ (BackupManager.restore_backup ctx selfHost driverName env st backup_id
        volume_id).1.db.backups,
      r.volume_id = volume_id →
        (hasMarkerSuffix r.display_description = true ↔ r.id = backup_id)) := by
  have hrun : BackupManager.restore_backup ctx selfHost driverName env st backup_id volume_id =
      ({ st with
          db := activeMarkerBookkeeping ctx
            (backup_update (volume_update (volume_update (backup_update st.db backup_id
              (fun x => { x with host := selfHost })) volume_id
              (fun w => { w with status := v.display_description })) volume_id
              (fun w => { w with display_description := some "" })) backup_id
              (fun x => { x with status := "available" }))
            { b with host := selfHost, status := "available" } backup_id volume_id,
          driverCalls := st.driverCalls ++ ["restore_backup"] },
        Except.ok ()) := by
    unfold BackupManager.restore_backup
    rw [hb]
    simp only [hv, hvs, hbs, hsvc, hdrv, hres, bne_self_eq_false, Bool.false_eq_true,
      if_false, Bool.not_true, withDb]
  rw [hrun]
  refine ⟨rfl, ?_⟩
  set db4 := backup_update (volume_update (volume_update (backup_update st.db backup_id
    (fun x => { x with host := selfHost })) volume_id
    (fun w => { w with status := v.display_description })) volume_id
    (fun w => { w with display_description := some "" })) backup_id
    (fun x => { x with status := "available" }) with hdb4def
  have hdb4b : db4.backups = st.db.backups.map (fun r =>
      if r.id == backup_id then { r with host := selfHost, status := "available" }
      else r) := by
    rw [hdb4def]
    show (st.db.backups.map _).map _ = _
    rw [List.map_map]
    apply List.map_congr_left
    intro r _
    by_cases hri : r.id = backup_id <;> simp [hri]
  have hmid : ∀ x : Backup, (if x.id == backup_id then
      { x with host := selfHost, status := "available" } else x).id = x.id := by
    intro x
    by_cases hx : x.id = backup_id <;> simp [hx]
  have hsoid : ∀ (L : List Backup) (x : Backup), (stripOutcome L x).id = x.id := by
    intro L x
    unfold stripOutcome
    rcases hf : L.find? (fun y => y.id == x.id) with _ | y
    · simp only [hf]
    · simp only [hf]
      rcases hyd : y.display_description with _ | d
      · simp only [hyd]
      · simp only [hyd]
        split <;> rfl
  have hsovol : ∀ (L : List Backup) (x : Backup),
      (stripOutcome L x).volume_id = x.volume_id := by
    intro L x
    unfold stripOutcome
    rcases hf : L.find? (fun y => y.id == x.id) with _ | y
    · simp only [hf]
    · simp only [hf]
      rcases hyd : y.display_description with _ | d
      · simp only [hyd]
      · simp only [hyd]
        split <;> rfl
  have hpair4 : db4.backups.Pairwise (fun x y => x.id ≠ y.id) := by
    rw [hdb4b, List.pairwise_map]
    refine List.Pairwise.imp ?_ hpair
    intro a c h
    rw [hmid a, hmid c]
    exact h
  have hpairvb : (backup_get_all_filtered db4 volume_id).Pairwise
      (fun x y => x.id ≠ y.id) :=
    List.Pairwise.sublist (List.filter_sublist _) hpair4
  have hbk : ∃ nd : String, hasMarkerSuffix (some nd) = true ∧
      activeMarkerBookkeeping ctx db4 { b with host := selfHost, status := "available" }
        backup_id volume_id =
      backup_update (stripFold (backup_get_all_filtered db4 volume_id) db4) backup_id
        (fun x => { x with display_description := some nd }) := by
    unfold activeMarkerBookkeeping
    rw [hadmin]
    rcases hbd : b.display_description with _ | d
    · exact ⟨MAGICSTR, by decide, by simp [hbd]⟩
    · by_cases hde : d.isEmpty = true
      · exact ⟨MAGICSTR, by decide, by simp [hbd, hde]⟩
      · refine ⟨d ++ MAGICSTR, hasMarkerSuffix_append d, ?_⟩
        simp [hbd, Bool.eq_false_iff.mpr hde]
  obtain ⟨nd, hndm, hbkeq⟩ := hbk
  rw [hbkeq]
  intro r hr hrvol
  rcases mem_backup_update _ _ _ r hr with ⟨x5, hx5, hx5ne, rfl⟩ | ⟨x5, hx5, hx5id, rfl⟩
  · -- a row whose id is not backup_id: never a carrier afterwards
    rw [stripFold_eq_map _ db4 hpairvb] at hx5
    obtain ⟨x4, hx4, rfl⟩ := List.mem_map.mp hx5
    rw [hdb4b] at hx4
    obtain ⟨x0, hx0, rfl⟩ := List.mem_map.mp hx4
    have hx0ne : x0.id ≠ backup_id := fun hx0i =>
      hx5ne (by rw [hsoid, hmid]; exact hx0i)
    have hmx0 : (if x0.id == backup_id then
        { x0 with host := selfHost, status := "available" } else x0) = x0 := by
      simp [beq_eq_false_iff_ne.mpr hx0ne]
    rw [hmx0] at hx5ne hrvol ⊢
    have hx0vol : x0.volume_id = volume_id := by
      rw [hsovol] at hrvol
      exact hrvol
    have hx0mem4 : x0 ∈ db4.backups := by
      rw [hdb4b]
      exact List.mem_map.mpr ⟨x0, hx0, hmx0⟩
    have hx0vb : x0 ∈ backup_get_all_filtered db4 volume_id := by
      unfold backup_get_all_filtered
      exact List.mem_filter.mpr ⟨hx0mem4, by rw [hx0vol]; exact beq_self_eq_true _⟩
    have hfind : (backup_get_all_filtered db4 volume_id).find?
        (fun y => y.id == x0.id) = some x0 := find?_id_self hpairvb hx0vb
    have hnotcar : hasMarkerSuffix
        ((stripOutcome (backup_get_all_filtered db4 volume_id) x0).display_description) =
        false := by
      unfold stripOutcome
      rw [hfind]
      rcases hx0d : x0.display_description with _ | d
      · simp only [hx0d]
        rfl
      · have hequiv : hasMarkerSuffix (some d) =
            (!d.isEmpty && pyLastN 6 d == MAGICSTR) := rfl
        simp only [hx0d]
        by_cases hc : (!d.isEmpty && pyLastN 6 d == MAGICSTR) = true
        · rw [if_pos hc]
          have hnds := hnd x0 hx0 hx0vol (by rw [hx0d, hequiv]; exact hc)
          rw [hx0d] at hnds
          simp only [Option.getD_some] at hnds
          exact hnds
        · rw [if_neg hc, hx0d, hequiv]
          exact Bool.eq_false_iff.mpr hc
    refine iff_of_false (by simp [hnotcar]) ?_
    rw [hsoid]
    exact hx0ne
  · -- the restored backup's row: always a carrier afterwards
    exact iff_of_true hndm hx5id

end CmssCinder

namespace CmssCinder

theorem c7_active_marker_amended_witness :
    c7_wbackup.status = "restoring" ∧
    c7_wvolume.status = some "restoring-backup" ∧
    (∀ x ∈ c7_wst.db.backups, x.volume_id = "v" →
      hasMarkerSuffix x.display_description = true →
      hasMarkerSuffix (some (pyDropLastN 6 (x.display_description.getD ""))) = false) ∧
    ((BackupManager.restore_backup c7_ctx "h1" "drv" c7_menv c7_wst "b1" "v").2 =
      Except.ok () ∧
     (∀ r ∈ (BackupManager.restore_backup c7_ctx "h1" "drv" c7_menv c7_wst
        "b1" "v").1.db.backups,
      r.volume_id = "v" →
        (hasMarkerSuffix r.display_description = true ↔ r.id = "b1"))) :=
  ⟨rfl, rfl, by decide,
    c7_active_marker_amended c7_ctx "h1" "drv" c7_menv c7_wst "b1" "v"
      c7_wbackup c7_wvolume rfl rfl rfl rfl rfl rfl rfl (by decide) rfl rfl
      (by decide) (by decide)⟩

end CmssCinder
